import Mathlib

/-!
Verification development for the DASH runtime core.

Part 1 models `dart_tasking_datadeps.c` (task data-dependency management:
the dependency hash, remote dependency handling, phase flush, release
protocol).  Part 2 models `dash/dart/base/locality.c` (the locality tree
builder, tag lookup and deletion).

Pointer-linked structures are modelled as Lean lists; `taskref` union values
and task pointers are modelled as `Nat` identifiers with `0` playing the role
of `NULL`.  Machine integers that never overflow in the modelled paths are
`Nat`/`Int`; where the sources narrow a wider value into a C `int` (the
`(int)` cast in the tag lookup, the `size_t`-to-`int` unit-count stores of
the locality builder) the conversion is modelled explicitly by `int_of`, and
`strtol`'s clamping at `LONG_MAX`/`LONG_MIN` is modelled in `strtol10`.
Calls into the remote transport are recorded as messages in emission order.
-/

set_option linter.unusedVariables false

/-- `dart_ret_t` return codes reachable in the modelled functions. -/
inductive dart_ret_t where
  | DART_OK
  | DART_ERR_INVAL
  deriving DecidableEq, Repr

/-- `dart_dep_type` (dart_tasking.h).  `DART_DEP_IN` is the first enumerator,
hence the value produced by `memset`/`calloc` zeroing. -/
inductive dart_dep_type where
  | DART_DEP_IN
  | DART_DEP_OUT
  | DART_DEP_INOUT
  | DART_DEP_DIRECT
  deriving DecidableEq, Repr

/-- `dart_gptr_t`.  `addr_or_offs` is a union of the absolute address and the
64-bit offset laid over the same bits; the dependency code reads either member
of the same stored value, so the model keeps one `offset` field for both. -/
structure dart_gptr_t where
  unitid : Int
  segid : Int
  offset : Nat
  deriving DecidableEq, Repr

/-- `DART_GPTR_NULL` (dart_types.h): undefined unit, zero segment/address. -/
def DART_GPTR_NULL : dart_gptr_t := { unitid := -1, segid := 0, offset := 0 }

/-- `dart_task_dep_t`. -/
structure dart_task_dep_t where
  type : dart_dep_type
  gptr : dart_gptr_t
  deriving DecidableEq, Repr

/-- `dart_phase_dep_t`: a dependency together with the phase it was issued in. -/
structure dart_phase_dep_t where
  dep : dart_task_dep_t
  phase : Nat
  deriving DecidableEq, Repr

/-- `IS_OUT_DEP` (part_001 line 22). -/
def IS_OUT_DEP (taskdep : dart_task_dep_t) : Bool :=
  taskdep.type == dart_dep_type.DART_DEP_OUT || taskdep.type == dart_dep_type.DART_DEP_INOUT

/-- `dart_dephash_elem_t` (part_001 lines 24-29) without the intrusive `next`
pointer: linked lists are Lean lists in this model.  `task` stores the
`taskref` union as a raw pointer value (`0` models `NULL`; the holder knows
whether the reference is local or remote). -/
structure dart_dephash_elem_t where
  task : Nat
  taskdep : dart_task_dep_t
  phase : Nat
  deriving DecidableEq, Repr

/-- The all-zero element produced by `calloc`/`memset` (the `next` field has no
counterpart here because list structure models it). -/
def zero_elem : dart_dephash_elem_t :=
  { task := 0
    taskdep := { type := dart_dep_type.DART_DEP_IN
                 gptr := { unitid := 0, segid := 0, offset := 0 } }
    phase := 0 }

/-- `dart_task_state_t` (dart_tasking_priv.h). -/
inductive dart_task_state_t where
  | DART_TASK_CREATED
  | DART_TASK_READY
  | DART_TASK_RUNNING
  | DART_TASK_FINISHED
  | DART_TASK_CANCELLED
  deriving DecidableEq, Repr

/-- The per-task fields read or written by the dependency code
(`dart_task_t`).  Tasks are identified by their pointer value (a `Nat`); the
global state carries an association list from id to this record. -/
structure dart_task_t where
  phase : Nat
  state : dart_task_state_t
  unresolved_deps : Int
  successor : List Nat
  remote_successor : List dart_dephash_elem_t
  deriving DecidableEq, Repr

/-- A task with no dependencies, in the state it is created in. -/
def default_task : dart_task_t :=
  { phase := 0, state := dart_task_state_t.DART_TASK_CREATED, unresolved_deps := 0
    successor := [], remote_successor := [] }

/-- Calls into the remote transport (dart_tasking_remote.h), recorded in
emission order: `dart_tasking_remote_datadep`,
`dart_tasking_remote_direct_taskdep` and `dart_tasking_remote_release`. -/
inductive remote_msg where
  | datadep (dep : dart_task_dep_t) (task : Nat)
  | direct_taskdep (unit : Int) (local_task : Nat) (remote_task : Nat)
  | release (unit : Int) (task : Nat) (dep : dart_task_dep_t)
  deriving DecidableEq, Repr

/-- `DART_DEPHASH_SIZE` (part_001 line 12). -/
def DART_DEPHASH_SIZE : Nat := 1024

/-- `hash_gptr` (part_001 lines 43-56): shift the 8-byte-aligned offset right
by 3, then fold with the Marsaglia shift triplet (7, 11, 17) and reduce
modulo the table size. -/
def hash_gptr (gptr : dart_gptr_t) : Nat :=
  let offset := gptr.offset >>> 3
  (offset ^^^ (offset >>> 7) ^^^ (offset >>> 11) ^^^ (offset >>> 17)) % DART_DEPHASH_SIZE

/-- The file-scope state of dart_tasking_datadeps.c (`local_deps`,
`freelist_head`, `unhandled_remote_deps`), together with the task heap, the
releasing thread's ready queue and the transcript of emitted remote
messages. -/
structure dd_state where
  local_deps : Nat → List dart_dephash_elem_t
  freelist : List dart_dephash_elem_t
  unhandled_remote_deps : List dart_dephash_elem_t
  tasks : List (Nat × dart_task_t)
  msgs : List remote_msg
  queue : List Nat

/-- Dereference a task pointer (tasks exist before they are referenced; the
default is never reached in the modelled scenarios). -/
def task_get (tasks : List (Nat × dart_task_t)) (id : Nat) : dart_task_t :=
  match tasks.find? (fun kv => kv.1 == id) with
  | some kv => kv.2
  | none => default_task

/-- Write through a task pointer. -/
def task_upd (tasks : List (Nat × dart_task_t)) (id : Nat)
    (f : dart_task_t → dart_task_t) : List (Nat × dart_task_t) :=
  tasks.map (fun kv => if kv.1 = id then (kv.1, f kv.2) else kv)

/-- The state right after `dart_tasking_datadeps_init`: empty hash, empty free
list, no unhandled remote dependencies. -/
def empty_state : dd_state :=
  { local_deps := fun _ => [], freelist := [], unhandled_remote_deps := []
    tasks := [], msgs := [], queue := [] }

/-- `dephash_allocate_elem` (part_001 lines 109-132): pop from the free list
when non-empty, otherwise `calloc` a zeroed element; then fill in `task` and
`taskdep`.  The `DART_ASSERT(elem->task.local == NULL)` on the popped element
is stated separately as `alloc_assert_holds`. -/
def dephash_allocate_elem (dep : dart_task_dep_t) (task : Nat)
    (freelist : List dart_dephash_elem_t) :
    dart_dephash_elem_t × List dart_dephash_elem_t :=
  match freelist with
  | [] => ({ zero_elem with task := task, taskdep := dep }, [])
  | e :: rest => ({ e with task := task, taskdep := dep }, rest)

/-- The assertion `DART_ASSERT(elem->task.local == NULL)` of
`dephash_allocate_elem` (line 127), stated of the element the next allocation
would pop from the free list. -/
def alloc_assert_holds (freelist : List dart_dephash_elem_t) : Prop :=
  match freelist with
  | [] => True
  | e :: _ => e.task = 0

/-- `dephash_recycle_elem` (part_001 lines 138-146): `memset` the element to
zero and push it onto the free list. -/
def dephash_recycle_elem (s : dd_state) (_elem : dart_dephash_elem_t) : dd_state :=
  { s with freelist := zero_elem :: s.freelist }

/-- `dephash_add_local` (part_001 lines 151-164): allocate an element for
`(dep, task)`, stamp it with the task's phase and push it at the head of its
hash slot. -/
def dephash_add_local (dep : dart_task_dep_t) (task : Nat) (s : dd_state) : dd_state :=
  let alloc := dephash_allocate_elem dep task s.freelist
  let elem := { alloc.1 with phase := (task_get s.tasks task).phase }
  let slot := hash_gptr dep.gptr
  { s with
    freelist := alloc.2
    local_deps := fun i => if i = slot then elem :: s.local_deps i else s.local_deps i }

/-- Intermediate state of the `check_unresolved_remote_deps` sweep.  The
`unhandled_remote_deps` chain is modelled at the pointer level because the
loop manipulates `prev`/`next` pointers directly: nodes are named by their
position in the chain at entry, `nxt` holds each node's `next` pointer and
`head` is `unhandled_remote_deps` itself. -/
structure sweep_state where
  nxt : List (Option Nat)
  head : Option Nat
  moved : List Nat
  msgs : List remote_msg
  inc : Nat
  deriving Repr

/-- The loop of `check_unresolved_remote_deps` (part_001 lines 184-215).
`elem` walks the chain following the `next` pointer saved at the top of each
iteration; `prev` is only advanced for nodes whose address does not match.
A matching node in the task's phase is spliced out (through `prev`, or the
head when `prev` is `NULL`) and pushed onto the task's remote-successor
stack; a matching node from an earlier phase triggers a direct
task-dependency message and an `unresolved_deps` increment.  Each iteration
follows the saved `next`, so `entries.length` fuel suffices. -/
def sweep_loop (entries : List dart_dephash_elem_t) (task : Nat) (task_phase : Nat)
    (dep_addr : Nat) :
    Nat → Option Nat → Option Nat → sweep_state → sweep_state
  | 0, _, _, st => st
  | _ + 1, none, _, st => st
  | fuel + 1, some i, prev, st =>
    let e := entries.getD i zero_elem
    let next := st.nxt.getD i none
    if e.taskdep.gptr.offset = dep_addr then
      if e.phase = task_phase then
        let st1 :=
          match prev with
          | none => { st with head := next }
          | some p => { st with nxt := st.nxt.set p next }
        let st2 := { st1 with moved := st1.moved ++ [i] }
        sweep_loop entries task task_phase dep_addr fuel next prev st2
      else if e.phase < task_phase then
        let st2 := { st with
          msgs := st.msgs ++
            [remote_msg.direct_taskdep e.taskdep.gptr.unitid task e.task]
          inc := st.inc + 1 }
        sweep_loop entries task task_phase dep_addr fuel next prev st2
      else
        sweep_loop entries task task_phase dep_addr fuel next prev st
    else
      sweep_loop entries task task_phase dep_addr fuel next (some i) st

/-- Read the chain contents back out of the pointer model.  All `next` edges
point to strictly larger node indices, so `entries.length` steps reach the
end. -/
def chase_chain (entries : List dart_dephash_elem_t) (nxt : List (Option Nat)) :
    Nat → Option Nat → List dart_dephash_elem_t
  | 0, _ => []
  | _, none => []
  | fuel + 1, some i =>
    entries.getD i zero_elem :: chase_chain entries nxt fuel (nxt.getD i none)

/-- `check_unresolved_remote_deps` (part_001 lines 175-220). -/
def check_unresolved_remote_deps (task : Nat) (dep : dart_task_dep_t)
    (s : dd_state) : dd_state :=
  if IS_OUT_DEP dep = true ∧ s.unhandled_remote_deps ≠ [] then
    let entries := s.unhandled_remote_deps
    let n := entries.length
    let st0 : sweep_state :=
      { nxt := (List.range n).map (fun i => if i + 1 < n then some (i + 1) else none)
        head := if n = 0 then none else some 0
        moved := [], msgs := [], inc := 0 }
    let st := sweep_loop entries task (task_get s.tasks task).phase dep.gptr.offset
      n st0.head none st0
    let movedElems := st.moved.map (fun i => entries.getD i zero_elem)
    { s with
      unhandled_remote_deps := chase_chain entries st.nxt n st.head
      tasks := task_upd s.tasks task (fun t =>
        { t with
          remote_successor := movedElems.reverse ++ t.remote_successor
          unresolved_deps := t.unresolved_deps + st.inc })
      msgs := s.msgs ++ st.msgs }
  else s

/-- `dart_tasking_datadeps_release_unhandled_remote` (part_001 lines 222-240):
walk `unhandled_remote_deps`, send a release to each entry's origin, recycle
the entries and empty the list. -/
def dart_tasking_datadeps_release_unhandled_remote (s : dd_state) :
    dart_ret_t × dd_state :=
  let s' := s.unhandled_remote_deps.foldl
    (fun acc e =>
      let acc := { acc with
        msgs := acc.msgs ++ [remote_msg.release e.taskdep.gptr.unitid e.task e.taskdep] }
      dephash_recycle_elem acc e) s
  (dart_ret_t.DART_OK, { s' with unhandled_remote_deps := [] })

/-- `dart_tasking_datadeps_end_phase` (part_001 lines 417-421): the body is
only the comment `nothing to be done for now` and `return DART_OK`. -/
def dart_tasking_datadeps_end_phase (_phase : Nat) (s : dd_state) :
    dart_ret_t × dd_state :=
  (dart_ret_t.DART_OK, s)

/-- The slot walk of `dart_tasking_datadeps_handle_task` (part_001 lines
270-295): register `task` as a local successor of each matching unfinished
task, counting the new dependency, and stop at the first OUT|INOUT entry for
the same address. -/
def handle_task_chain (task : Nat) (dep : dart_task_dep_t) :
    List dart_dephash_elem_t → dd_state → dd_state
  | [], s => s
  | elem :: rest, s =>
    if elem.taskdep.gptr.offset = dep.gptr.offset then
      let et := task_get s.tasks elem.task
      let s :=
        if et.state ≠ dart_task_state_t.DART_TASK_FINISHED ∧
            (IS_OUT_DEP dep = true ∨
              (dep.type = dart_dep_type.DART_DEP_IN ∧ IS_OUT_DEP elem.taskdep = true)) then
          let s := { s with
            tasks := task_upd s.tasks task
              (fun t => { t with unresolved_deps := t.unresolved_deps + 1 }) }
          { s with
            tasks := task_upd s.tasks elem.task
              (fun t => { t with successor := task :: t.successor }) }
        else s
      if IS_OUT_DEP elem.taskdep = true then s
      else handle_task_chain task dep rest s
    else handle_task_chain task dep rest s

/-- `dart_tasking_datadeps_handle_task` (part_001 lines 247-309).  `getoffset`
models `dart_gptr_getoffset`, the external resolver from segment-relative
offset to absolute address, and `myid` models `dart_myid`. -/
def dart_tasking_datadeps_handle_task (getoffset : dart_gptr_t → Nat) (myid : Int)
    (task : Nat) (deps : List dart_task_dep_t) (s : dd_state) :
    dart_ret_t × dd_state :=
  let s' := deps.foldl
    (fun s dep0 =>
      let dep := { dep0 with gptr := { dep0.gptr with offset := getoffset dep0.gptr } }
      let slot := hash_gptr dep.gptr
      if dep.gptr.unitid ≠ myid then
        { s with msgs := s.msgs ++ [remote_msg.datadep dep task] }
      else
        let s := handle_task_chain task dep (s.local_deps slot) s
        let s := dephash_add_local dep task s
        check_unresolved_remote_deps task dep s) s
  (dart_ret_t.DART_OK, s')

/-- The slot walk of `dart_tasking_datadeps_handle_remote_task` (part_001
lines 327-349): the first entry that addresses the same offset with an
OUT|INOUT dependency. -/
def find_local_out : List dart_dephash_elem_t → Nat → Option dart_dephash_elem_t
  | [], _ => none
  | e :: rest, off =>
    if e.taskdep.gptr.offset = off ∧ IS_OUT_DEP e.taskdep = true then some e
    else find_local_out rest off

/-- `dart_tasking_datadeps_handle_remote_task` (part_001 lines 316-361). -/
def dart_tasking_datadeps_handle_remote_task (dep : dart_phase_dep_t)
    (remote_task : Nat) (origin : Int) (s : dd_state) : dart_ret_t × dd_state :=
  if dep.dep.type ≠ dart_dep_type.DART_DEP_IN then
    (dart_ret_t.DART_ERR_INVAL, s)
  else
    let slot := hash_gptr dep.dep.gptr
    match find_local_out (s.local_deps slot) dep.dep.gptr.offset with
    | some elem =>
      let task := elem.task
      if (task_get s.tasks task).state ≠ dart_task_state_t.DART_TASK_FINISHED then
        let alloc := dephash_allocate_elem dep.dep remote_task s.freelist
        let rs := { alloc.1 with
          taskdep := { alloc.1.taskdep with
            gptr := { alloc.1.taskdep.gptr with unitid := origin } }
          phase := dep.phase }
        (dart_ret_t.DART_OK,
          { s with
            freelist := alloc.2
            tasks := task_upd s.tasks task
              (fun t => { t with remote_successor := rs :: t.remote_successor }) })
      else
        (dart_ret_t.DART_OK,
          { s with msgs := s.msgs ++ [remote_msg.release origin remote_task dep.dep] })
    | none =>
      let alloc := dephash_allocate_elem dep.dep remote_task s.freelist
      let rs := { alloc.1 with
        taskdep := { alloc.1.taskdep with
          gptr := { alloc.1.taskdep.gptr with unitid := origin } }
        phase := dep.phase }
      (dart_ret_t.DART_OK,
        { s with
          freelist := alloc.2
          unhandled_remote_deps := rs :: s.unhandled_remote_deps })

/-- `dart_tasking_datadeps_handle_remote_direct` (part_001 lines 368-384). -/
def dart_tasking_datadeps_handle_remote_direct (local_task : Nat)
    (remote_task : Nat) (origin : Int) (s : dd_state) : dart_ret_t × dd_state :=
  let dep : dart_task_dep_t :=
    { type := dart_dep_type.DART_DEP_DIRECT
      gptr := { DART_GPTR_NULL with unitid := origin } }
  let alloc := dephash_allocate_elem dep remote_task s.freelist
  (dart_ret_t.DART_OK,
    { s with
      freelist := alloc.2
      tasks := task_upd s.tasks local_task
        (fun t => { t with remote_successor := alloc.1 :: t.remote_successor }) })

/-- The slot walk of `send_direct_dependencies` (part_001 lines 437-479):
stop at the first entry with no pending dependencies; otherwise send a direct
task-dependency request to each matching OUT|INOUT entry's task and count the
new dependency. -/
def send_direct_dependencies_chain (remotedep : dart_dephash_elem_t) :
    List dart_dephash_elem_t → dd_state → dd_state
  | [], s => s
  | elem :: rest, s =>
    if (task_get s.tasks elem.task).unresolved_deps = 0 then s
    else
      let s :=
        if elem.taskdep.gptr.offset = remotedep.taskdep.gptr.offset ∧
            IS_OUT_DEP elem.taskdep = true then
          { s with
            msgs := s.msgs ++
              [remote_msg.direct_taskdep remotedep.taskdep.gptr.unitid elem.task
                remotedep.task]
            tasks := task_upd s.tasks elem.task
              (fun t => { t with unresolved_deps := t.unresolved_deps + 1 }) }
        else s
      send_direct_dependencies_chain remotedep rest s

/-- `send_direct_dependencies` (part_001 lines 429-482). -/
def send_direct_dependencies (remotedep : dart_dephash_elem_t) (s : dd_state) :
    dd_state :=
  if remotedep.taskdep.type = dart_dep_type.DART_DEP_DIRECT then s
  else
    send_direct_dependencies_chain remotedep
      (s.local_deps (hash_gptr remotedep.taskdep.gptr)) s

/-- `release_remote_dependencies` (part_001 lines 489-510). -/
def release_remote_dependencies (task : Nat) (s : dd_state) : dd_state :=
  let rss := (task_get s.tasks task).remote_successor
  let s := rss.foldl
    (fun s rs =>
      let s := send_direct_dependencies rs s
      let s := { s with
        msgs := s.msgs ++
          [remote_msg.release rs.taskdep.gptr.unitid rs.task rs.taskdep] }
      dephash_recycle_elem s rs) s
  { s with tasks := task_upd s.tasks task (fun t => { t with remote_successor := [] }) }

/-- `dart_tasking_datadeps_release_local_task` (part_001 lines 389-414):
release remote successors, then decrement each local successor's
`unresolved_deps`, pushing tasks that reach zero onto the releasing thread's
queue.  The C frees the `task_list_t` cells but leaves `task->successor`
dangling; the model keeps the ids in place accordingly. -/
def dart_tasking_datadeps_release_local_task (task : Nat) (s : dd_state) :
    dart_ret_t × dd_state :=
  let s := release_remote_dependencies task s
  let succs := (task_get s.tasks task).successor
  let s := succs.foldl
    (fun s tid =>
      let newCount := (task_get s.tasks tid).unresolved_deps - 1
      let s := { s with
        tasks := task_upd s.tasks tid
          (fun t => { t with unresolved_deps := t.unresolved_deps - 1 }) }
      if newCount = 0 then { s with queue := s.queue ++ [tid] } else s) s
  (dart_ret_t.DART_OK, s)

/-- `dart_tasking_datadeps_reset` (part_001 lines 70-82): recycle every entry
of every slot, then zero the slot heads. -/
def dart_tasking_datadeps_reset (s : dd_state) : dart_ret_t × dd_state :=
  let s := (List.range DART_DEPHASH_SIZE).foldl
    (fun s i => (s.local_deps i).foldl (fun s e => dephash_recycle_elem s e) s) s
  (dart_ret_t.DART_OK, { s with local_deps := fun _ => [] })

/-- The modelled public operations of the dependency subsystem (the entry
points listed in the spec's public API that touch dependency state). -/
inductive dd_op where
  | reset
  | release_unhandled
  | end_phase (phase : Nat)
  | handle_task (getoffset : dart_gptr_t → Nat) (myid : Int) (task : Nat)
      (deps : List dart_task_dep_t)
  | handle_remote_task (dep : dart_phase_dep_t) (remote_task : Nat) (origin : Int)
  | handle_remote_direct (local_task : Nat) (remote_task : Nat) (origin : Int)
  | release_local_task (task : Nat)

/-- Apply a public operation to the dependency state. -/
def dd_apply : dd_op → dd_state → dd_state
  | dd_op.reset, s => (dart_tasking_datadeps_reset s).2
  | dd_op.release_unhandled, s => (dart_tasking_datadeps_release_unhandled_remote s).2
  | dd_op.end_phase p, s => (dart_tasking_datadeps_end_phase p s).2
  | dd_op.handle_task g m t d, s => (dart_tasking_datadeps_handle_task g m t d s).2
  | dd_op.handle_remote_task d r o, s =>
      (dart_tasking_datadeps_handle_remote_task d r o s).2
  | dd_op.handle_remote_direct l r o, s =>
      (dart_tasking_datadeps_handle_remote_direct l r o s).2
  | dd_op.release_local_task t, s => (dart_tasking_datadeps_release_local_task t s).2

/-- Every element on the free list is fully zeroed. -/
def freelist_zeroed (s : dd_state) : Prop :=
  ∀ e ∈ s.freelist, e = zero_elem

lemma freelist_zeroed_of_eq {s s' : dd_state} (h : s'.freelist = s.freelist)
    (hz : freelist_zeroed s) : freelist_zeroed s' := by
  intro e he; exact hz e (h ▸ he)

lemma freelist_zeroed_recycle {s : dd_state} (hz : freelist_zeroed s)
    (e : dart_dephash_elem_t) : freelist_zeroed (dephash_recycle_elem s e) := by
  intro x hx
  simp only [dephash_recycle_elem, List.mem_cons] at hx
  rcases hx with h | h
  · exact h
  · exact hz x h

lemma freelist_zeroed_alloc {fl : List dart_dephash_elem_t}
    (h : ∀ e ∈ fl, e = zero_elem) (dep : dart_task_dep_t) (task : Nat) :
    ∀ e ∈ (dephash_allocate_elem dep task fl).2, e = zero_elem := by
  cases fl with
  | nil => simp [dephash_allocate_elem]
  | cons a l =>
    intro e he
    exact h e (by simpa [dephash_allocate_elem] using List.mem_cons_of_mem a he)

lemma foldl_preserve {α : Type _} {P : dd_state → Prop} {f : dd_state → α → dd_state}
    (hf : ∀ s a, P s → P (f s a)) :
    ∀ (l : List α) (s : dd_state), P s → P (l.foldl f s) := by
  intro l
  induction l with
  | nil => intro s hs; simpa using hs
  | cons a l ih => intro s hs; exact ih _ (hf s a hs)

lemma handle_task_chain_freelist (task : Nat) (dep : dart_task_dep_t) :
    ∀ (l : List dart_dephash_elem_t) (s : dd_state),
      (handle_task_chain task dep l s).freelist = s.freelist := by
  intro l
  induction l with
  | nil => intro s; rfl
  | cons e l ih =>
    intro s
    simp only [handle_task_chain]
    split
    · split
      · split <;> rfl
      · rw [ih]; split <;> rfl
    · exact ih s

lemma check_unresolved_freelist (task : Nat) (dep : dart_task_dep_t) (s : dd_state) :
    (check_unresolved_remote_deps task dep s).freelist = s.freelist := by
  simp only [check_unresolved_remote_deps]
  split <;> rfl

lemma send_direct_chain_freelist (r : dart_dephash_elem_t) :
    ∀ (l : List dart_dephash_elem_t) (s : dd_state),
      (send_direct_dependencies_chain r l s).freelist = s.freelist := by
  intro l
  induction l with
  | nil => intro s; rfl
  | cons e l ih =>
    intro s
    simp only [send_direct_dependencies_chain]
    split
    · rfl
    · split <;> simp [ih]

lemma send_direct_freelist (r : dart_dephash_elem_t) (s : dd_state) :
    (send_direct_dependencies r s).freelist = s.freelist := by
  simp only [send_direct_dependencies]
  split
  · rfl
  · exact send_direct_chain_freelist r _ s

lemma freelist_zeroed_add_local {s : dd_state} (hz : freelist_zeroed s)
    (dep : dart_task_dep_t) (task : Nat) :
    freelist_zeroed (dephash_add_local dep task s) := by
  intro e he
  exact freelist_zeroed_alloc hz dep task e he

lemma freelist_zeroed_release_remote {task : Nat} {s : dd_state}
    (hz : freelist_zeroed s) : freelist_zeroed (release_remote_dependencies task s) := by
  unfold release_remote_dependencies
  refine freelist_zeroed_of_eq rfl ?_
  refine foldl_preserve (P := freelist_zeroed) ?_ _ s hz
  intro s' rs hs'
  refine freelist_zeroed_recycle ?_ rs
  refine freelist_zeroed_of_eq (s := send_direct_dependencies rs s') ?_ ?_
  · simp
  · exact freelist_zeroed_of_eq (send_direct_freelist rs s') hs'

lemma freelist_zeroed_reset {s : dd_state} (h : freelist_zeroed s) :
    freelist_zeroed (dart_tasking_datadeps_reset s).2 := by
  have hf : freelist_zeroed ((List.range DART_DEPHASH_SIZE).foldl
      (fun s i => (s.local_deps i).foldl (fun s e => dephash_recycle_elem s e) s) s) := by
    refine foldl_preserve ?_ _ s h
    intro s' i hs'
    refine foldl_preserve ?_ _ s' hs'
    intro s'' e hs''
    exact freelist_zeroed_recycle hs'' e
  unfold dart_tasking_datadeps_reset freelist_zeroed
  dsimp only
  intro e he
  exact hf e he

lemma freelist_zeroed_release_unhandled {s : dd_state} (h : freelist_zeroed s) :
    freelist_zeroed (dart_tasking_datadeps_release_unhandled_remote s).2 := by
  have hf : freelist_zeroed (s.unhandled_remote_deps.foldl
      (fun acc e => dephash_recycle_elem
        { acc with msgs := acc.msgs ++
            [remote_msg.release e.taskdep.gptr.unitid e.task e.taskdep] } e) s) :=
    foldl_preserve (fun s' e hs' =>
      freelist_zeroed_recycle (fun x hx => hs' x hx) e) _ s h
  intro e he
  exact hf e he

lemma freelist_zeroed_handle_task {s : dd_state} (h : freelist_zeroed s)
    (g : dart_gptr_t → Nat) (myid : Int) (task : Nat) (deps : List dart_task_dep_t) :
    freelist_zeroed (dart_tasking_datadeps_handle_task g myid task deps s).2 := by
  unfold dart_tasking_datadeps_handle_task
  refine foldl_preserve ?_ deps s h
  intro s' dep0 hs'
  dsimp only
  split
  · exact freelist_zeroed_of_eq rfl hs'
  · refine freelist_zeroed_of_eq (check_unresolved_freelist _ _ _) ?_
    refine freelist_zeroed_add_local ?_ _ _
    exact freelist_zeroed_of_eq (handle_task_chain_freelist _ _ _ _) hs'

lemma freelist_zeroed_handle_remote_task {s : dd_state} (h : freelist_zeroed s)
    (dep : dart_phase_dep_t) (rt : Nat) (origin : Int) :
    freelist_zeroed (dart_tasking_datadeps_handle_remote_task dep rt origin s).2 := by
  unfold dart_tasking_datadeps_handle_remote_task
  split
  · exact h
  · dsimp only
    split
    · split
      · intro e he; exact freelist_zeroed_alloc h _ _ e he
      · exact freelist_zeroed_of_eq rfl h
    · intro e he; exact freelist_zeroed_alloc h _ _ e he

lemma freelist_zeroed_handle_remote_direct {s : dd_state} (h : freelist_zeroed s)
    (lt rt : Nat) (origin : Int) :
    freelist_zeroed (dart_tasking_datadeps_handle_remote_direct lt rt origin s).2 := by
  unfold dart_tasking_datadeps_handle_remote_direct
  intro e he
  exact freelist_zeroed_alloc h _ _ e he

lemma freelist_zeroed_release_local {s : dd_state} (h : freelist_zeroed s) (task : Nat) :
    freelist_zeroed (dart_tasking_datadeps_release_local_task task s).2 := by
  unfold dart_tasking_datadeps_release_local_task
  dsimp only
  refine foldl_preserve ?_ _ _ (freelist_zeroed_release_remote h)
  intro s' tid hs'
  dsimp only
  split
  · exact freelist_zeroed_of_eq rfl hs'
  · exact freelist_zeroed_of_eq rfl hs'

/-- C9: every element on the free list is fully zeroed --
`dephash_recycle_elem` zeroes before pushing, every modelled operation frees
entries only through it, so the invariant is preserved by every public
operation; and under the invariant the element `dephash_allocate_elem` would
pop has a `NULL` task pointer, i.e. the allocation assertion
`DART_ASSERT(elem->task.local == NULL)` holds. -/
theorem C9_freelist_zeroed_invariant (op : dd_op) (s : dd_state)
    (h : freelist_zeroed s) :
    freelist_zeroed (dd_apply op s) ∧ alloc_assert_holds s.freelist := by
  constructor
  · cases op with
    | reset => exact freelist_zeroed_reset h
    | release_unhandled => exact freelist_zeroed_release_unhandled h
    | end_phase p => exact h
    | handle_task g m t d => exact freelist_zeroed_handle_task h g m t d
    | handle_remote_task d r o => exact freelist_zeroed_handle_remote_task h d r o
    | handle_remote_direct l r o => exact freelist_zeroed_handle_remote_direct h l r o
    | release_local_task t => exact freelist_zeroed_release_local h t
  · cases hs : s.freelist with
    | nil => exact trivial
    | cons e l =>
      have he : e = zero_elem := h e (by rw [hs]; exact List.mem_cons_self e l)
      show alloc_assert_holds (e :: l)
      show e.task = 0
      rw [he]; rfl

/-- Witness for C9 at a concrete state and operation. -/
theorem C9_witness :
    freelist_zeroed empty_state ∧
    (freelist_zeroed (dd_apply dd_op.reset empty_state) ∧
      alloc_assert_holds empty_state.freelist) :=
  ⟨fun e he => absurd he (by simp [empty_state]),
   C9_freelist_zeroed_invariant dd_op.reset empty_state
     (fun e he => absurd he (by simp [empty_state]))⟩

/-- C7: the hash slot computed by `hash_gptr` equals
`((addr>>3) ^ (addr>>10) ^ (addr>>14) ^ (addr>>20)) mod 1024` -- the code's
xor of the pre-shifted offset with shift triplet (7, 11, 17) folds into the
spec's formula -- and the table has exactly `DART_DEPHASH_SIZE = 1024`
slots, which the computed slot always indexes. -/
theorem C7_hash_gptr_formula (g : dart_gptr_t) :
    hash_gptr g =
      ((g.offset >>> 3) ^^^ (g.offset >>> 10) ^^^ (g.offset >>> 14) ^^^
        (g.offset >>> 20)) % 1024 ∧
    DART_DEPHASH_SIZE = 1024 ∧ hash_gptr g < DART_DEPHASH_SIZE := by
  refine ⟨?_, rfl, ?_⟩
  · show ((g.offset >>> 3) ^^^ (g.offset >>> 3 >>> 7) ^^^ (g.offset >>> 3 >>> 11) ^^^
      (g.offset >>> 3 >>> 17)) % DART_DEPHASH_SIZE = _
    rw [← Nat.shiftRight_add, ← Nat.shiftRight_add, ← Nat.shiftRight_add]
    norm_num [DART_DEPHASH_SIZE]
  · exact Nat.mod_lt _ (by decide)

/-- C8: `dart_tasking_datadeps_handle_remote_task` with a dependency kind
other than `DART_DEP_IN` returns `DART_ERR_INVAL` and leaves the whole state
unchanged: no hash slot, no `unhandled_remote_deps` entry, no
remote-successor entry, no message. -/
theorem C8_remote_non_in_rejected (dep : dart_phase_dep_t) (remote_task : Nat)
    (origin : Int) (s : dd_state)
    (h : dep.dep.type ≠ dart_dep_type.DART_DEP_IN) :
    dart_tasking_datadeps_handle_remote_task dep remote_task origin s =
      (dart_ret_t.DART_ERR_INVAL, s) := by
  unfold dart_tasking_datadeps_handle_remote_task
  simp [h]

/-- Witness for C8: a concrete OUT-typed remote dependency is rejected. -/
theorem C8_witness :
    ({ dep := { type := dart_dep_type.DART_DEP_OUT
                gptr := { unitid := 1, segid := 0, offset := 64 } }
       phase := 2 } : dart_phase_dep_t).dep.type ≠ dart_dep_type.DART_DEP_IN ∧
    dart_tasking_datadeps_handle_remote_task
      { dep := { type := dart_dep_type.DART_DEP_OUT
                 gptr := { unitid := 1, segid := 0, offset := 64 } }
        phase := 2 } 9 1 empty_state = (dart_ret_t.DART_ERR_INVAL, empty_state) :=
  ⟨by decide, C8_remote_non_in_rejected _ 9 1 empty_state (by decide)⟩

lemma release_unhandled_fold_msgs :
    ∀ (l : List dart_dephash_elem_t) (s : dd_state),
      (l.foldl (fun acc e =>
        dephash_recycle_elem
          { acc with msgs := acc.msgs ++
              [remote_msg.release e.taskdep.gptr.unitid e.task e.taskdep] } e) s).msgs =
        s.msgs ++
          l.map (fun e => remote_msg.release e.taskdep.gptr.unitid e.task e.taskdep) := by
  intro l
  induction l with
  | nil => intro s; simp
  | cons a l ih => intro s; rw [List.foldl_cons, ih]; simp [dephash_recycle_elem]

/-- A state with one remote IN request parked in `unhandled_remote_deps`
(as left by `dart_tasking_datadeps_handle_remote_task` when no local writer
matched). -/
def c1_elem : dart_dephash_elem_t :=
  { task := 7
    taskdep := { type := dart_dep_type.DART_DEP_IN
                 gptr := { unitid := 2, segid := 0, offset := 4096 } }
    phase := 3 }

def c1_state : dd_state :=
  { empty_state with unhandled_remote_deps := [c1_elem] }

/-- C1 counterexample: with an entry held in `unhandled_remote_deps`,
`dart_tasking_datadeps_end_phase` sends no release message and does not
empty the list -- its body is `return DART_OK` -- contradicting the claim
that `end_phase` flushes every entry. -/
theorem C1_end_phase_counterexample :
    (dart_tasking_datadeps_end_phase 0 c1_state).2.unhandled_remote_deps = [c1_elem] ∧
    c1_state.unhandled_remote_deps ≠ [] ∧
    (dart_tasking_datadeps_end_phase 0 c1_state).2.msgs = [] ∧
    (dart_tasking_datadeps_end_phase 0 c1_state).1 = dart_ret_t.DART_OK := by
  exact ⟨rfl, by decide, rfl, rfl⟩

/-- C1 amended: `end_phase` itself is a no-op returning `DART_OK`; the flush
described by the claim is performed by
`dart_tasking_datadeps_release_unhandled_remote`, which sends exactly one
release message to each entry's origin unit (in list order) and leaves
`unhandled_remote_deps` empty, for every prior state of the list. -/
theorem C1_flush_is_release_unhandled_remote (p : Nat) (s : dd_state) :
    dart_tasking_datadeps_end_phase p s = (dart_ret_t.DART_OK, s) ∧
    (dart_tasking_datadeps_release_unhandled_remote s).1 = dart_ret_t.DART_OK ∧
    (dart_tasking_datadeps_release_unhandled_remote s).2.unhandled_remote_deps = [] ∧
    (dart_tasking_datadeps_release_unhandled_remote s).2.msgs =
      s.msgs ++ s.unhandled_remote_deps.map
        (fun e => remote_msg.release e.taskdep.gptr.unitid e.task e.taskdep) := by
  refine ⟨rfl, rfl, rfl, ?_⟩
  unfold dart_tasking_datadeps_release_unhandled_remote
  dsimp only
  exact release_unhandled_fold_msgs _ s

/-- The address used in the C2 scenario (`0x8000`). -/
def c2_gptr : dart_gptr_t := { unitid := 0, segid := 0, offset := 0x8000 }

/-- Initial state for the C2 scenario: empty dependency hash, tasks A=1, B=2,
C=3 all in phase 0. -/
def c2_s0 : dd_state :=
  { empty_state with tasks := [(1, default_task), (2, default_task), (3, default_task)] }

def c2_s1 : dd_state :=
  (dart_tasking_datadeps_handle_task (fun g => g.offset) 0 1
    [{ type := dart_dep_type.DART_DEP_OUT, gptr := c2_gptr }] c2_s0).2

def c2_s2 : dd_state :=
  (dart_tasking_datadeps_handle_task (fun g => g.offset) 0 2
    [{ type := dart_dep_type.DART_DEP_IN, gptr := c2_gptr }] c2_s1).2

def c2_s3 : dd_state :=
  (dart_tasking_datadeps_handle_task (fun g => g.offset) 0 3
    [{ type := dart_dep_type.DART_DEP_OUT, gptr := c2_gptr }] c2_s2).2

/-- C2: registering A (`OUT 0x8000`), B (`IN 0x8000`), C (`OUT 0x8000`) in
phase 0 in this order yields exactly the successor edges A→B, A→C, B→C
(successor lists are newest-first) and unresolved dependency counts A=0,
B=1, C=2; no other task record changes and no remote message is sent. -/
theorem C2_out_in_out_scenario :
    c2_s3.tasks =
      [(1, { default_task with successor := [3, 2] }),
       (2, { default_task with successor := [3], unresolved_deps := 1 }),
       (3, { default_task with unresolved_deps := 2 })] ∧
    c2_s3.msgs = [] := by
  exact ⟨by decide, by decide⟩

/-- The two parked remote IN requests of the C3 scenario, both on address
`0x2000`: `c3_e0` from unit 3 in phase 0 (list head), `c3_e1` from unit 4 in
phase 1. -/
def c3_e0 : dart_dephash_elem_t :=
  { task := 5
    taskdep := { type := dart_dep_type.DART_DEP_IN
                 gptr := { unitid := 3, segid := 0, offset := 0x2000 } }
    phase := 0 }

def c3_e1 : dart_dephash_elem_t :=
  { task := 6
    taskdep := { type := dart_dep_type.DART_DEP_IN
                 gptr := { unitid := 4, segid := 0, offset := 0x2000 } }
    phase := 1 }

/-- State for the C3 scenario: local task 1 in phase 1, the two parked
requests in `unhandled_remote_deps`. -/
def c3_state : dd_state :=
  { empty_state with
    tasks := [(1, { default_task with phase := 1 })]
    unhandled_remote_deps := [c3_e0, c3_e1] }

def c3_dep : dart_task_dep_t :=
  { type := dart_dep_type.DART_DEP_OUT
    gptr := { unitid := 0, segid := 0, offset := 0x2000 } }

def c3_result : dd_state := check_unresolved_remote_deps 1 c3_dep c3_state

/-- C3 failing run: task 1 (phase 1, `OUT 0x2000`) sweeps
`unhandled_remote_deps = [c3_e0 (phase 0), c3_e1 (phase 1)]`.  The code sends
the direct task-dependency request for `c3_e0` and increments
`unresolved_deps` (so the claim's phase<T branch fired), and splices `c3_e1`
onto the remote-successor list, but because `prev` is not advanced past
`c3_e0`, the splice of `c3_e1` rewrites the list head and `c3_e0` is dropped:
the final list is empty although the claim (and the code's own comment,
part_001 lines 208-209) says the earlier-phase entry remains in the list. -/
theorem C3_stale_prev_drops_earlier_phase_entry :
    c3_result.unhandled_remote_deps = [] ∧
    c3_result.msgs = [remote_msg.direct_taskdep 3 1 5] ∧
    (task_get c3_result.tasks 1).remote_successor = [c3_e1] ∧
    (task_get c3_result.tasks 1).unresolved_deps = 1 := by
  exact ⟨by decide, by decide, by decide, by decide⟩

/-! ### Part 2: `dash/dart/base/locality.c` -/

/-- `dart_locality_scope_t`. -/
inductive dart_locality_scope_t where
  | DART_LOCALITY_SCOPE_UNDEFINED
  | DART_LOCALITY_SCOPE_GLOBAL
  | DART_LOCALITY_SCOPE_NODE
  | DART_LOCALITY_SCOPE_MODULE
  | DART_LOCALITY_SCOPE_NUMA
  | DART_LOCALITY_SCOPE_CORE
  deriving DecidableEq, Repr

/-- The `dart_hwinfo_t` fields the locality tree builder reads or writes;
probe fields `create_subdomains` never touches are omitted. -/
structure dart_hwinfo_t where
  num_modules : Int
  num_numa : Int
  num_cores : Int
  deriving DecidableEq, Repr

/-- The host-topology inputs consumed by `create_subdomains`:
`dart_host_topology_t`'s `num_nodes` and `host_names`, plus
`dart__base__host_topology__node_units` / `__module_units` (each returning a
unit array and its length, modelled as a list). -/
structure dart_host_topology_t where
  num_nodes : Nat
  host_names : List String
  node_units : String → List Int
  module_units : String → List Int

/-- The scalar fields of `dart_domain_locality_t`.  `domain_tag` is the char
array modelled as `List Char`; the `parent` back-pointer is represented by
the tree structure itself; `num_domains` and the `domains` child array live
in `locality_domain`. -/
structure domain_data where
  domain_tag : List Char
  host : String
  scope : dart_locality_scope_t
  level : Int
  relative_index : Nat
  node_id : Int
  hwinfo : dart_hwinfo_t
  num_nodes : Int
  num_units : Int
  unit_ids : List Int
  deriving DecidableEq, Repr

/-- A `dart_domain_locality_t` node: scalar data, the `num_domains` field and
the `domains` child array (`none` models a `NULL` pointer). -/
inductive locality_domain where
  | mk (data : domain_data) (num_domains : Int) (domains : Option (List locality_domain))

def locality_domain.data : locality_domain → domain_data
  | .mk d _ _ => d

def locality_domain.num_domains : locality_domain → Int
  | .mk _ nd _ => nd

def locality_domain.domains : locality_domain → Option (List locality_domain)
  | .mk _ _ cs => cs

/-- The child array, empty when `domains` is `NULL`. -/
def locality_domain.children : locality_domain → List locality_domain
  | .mk _ _ none => []
  | .mk _ _ (some l) => l

instance (o : Option (List locality_domain)) : Decidable (o = none) :=
  match o with
  | none => Decidable.isTrue rfl
  | some _ => Decidable.isFalse (fun h => Option.noConfusion h)

/-- `dart__base__locality__domain_delete` (part_000 lines 263-289): `NULL` is
accepted with `DART_OK`; a node with `num_domains > 0` but `domains == NULL`
is rejected with `DART_ERR_INVAL` by the first loop iteration before any
mutation; otherwise the children are deleted depth-first (the loop's range
check `num_domains <= subdom_idx` can never fire because `num_child_nodes`
snapshots `num_domains`, and the recursive calls' mutations vanish with the
freed child array, their return values being ignored), `domains` is freed and
`domains`/`num_domains` are reset. -/
def dart__base__locality__domain_delete :
    Option locality_domain → dart_ret_t × Option locality_domain
  | none => (dart_ret_t.DART_OK, none)
  | some t =>
    if 0 < t.num_domains ∧ t.domains = none then (dart_ret_t.DART_ERR_INVAL, some t)
    else (dart_ret_t.DART_OK, some (locality_domain.mk t.data 0 none))

/-- A decimal digit character: models the `%d` conversion of `sprintf`
(only ever applied to values below 10). -/
def digit_char (n : Nat) : Char :=
  match n with
  | 0 => '0' | 1 => '1' | 2 => '2' | 3 => '3' | 4 => '4'
  | 5 => '5' | 6 => '6' | 7 => '7' | 8 => '8' | _ => '9'

def nat_digits_aux (n : Nat) (acc : List Char) : List Char :=
  if n < 10 then digit_char n :: acc
  else nat_digits_aux (n / 10) (digit_char (n % 10) :: acc)
termination_by n
decreasing_by exact Nat.div_lt_self (by omega) (by omega)

/-- The decimal digit string of `n` (what `sprintf "%d"` writes for a
nonnegative int; the builder prints `rel_idx ≥ 0`). -/
def nat_digits (n : Nat) : List Char := nat_digits_aux n []

/-- The numeric value of a digit character. -/
def digit_val (c : Char) : Nat := c.toNat - 48

/-- Decimal value of a digit string (most significant first). -/
def digits_to_nat (ds : List Char) : Nat :=
  ds.foldl (fun a c => a * 10 + digit_val c) 0

/-- `strchr(s, '.')`: the suffix starting at the first `'.'`, or `none` when
absent (modelling the `NULL` return). -/
def strchr_dot : List Char → Option (List Char)
  | [] => none
  | c :: cs => if c = '.' then some (c :: cs) else strchr_dot cs

/-- The value a C `int` (32-bit two's complement, range
`[-2147483648, 2147483648)`) holds after a wider value is converted into it:
reduction modulo `2^32` into that range.  This is the conversion the sources
perform at `int subdomain_idx = (int)(tag_part)` (part_000 line 624) and at
every `size_t`-to-`int` store of a unit count into an `int` struct field
(part_000 lines 333, 451, 487, 537, 539, 582, 586); for values already in
the `int` range it is the identity. -/
def int_of (v : Int) : Int := (v + 2147483648) % 4294967296 - 2147483648

/-- `LONG_MAX` of the LP64 `long` that `strtol` returns. -/
def LONG_MAX : Int := 9223372036854775807

/-- `LONG_MIN` of the LP64 `long` that `strtol` returns. -/
def LONG_MIN : Int := -9223372036854775808

/-- `strtol(s, &end, 10)`: skip spaces, optional sign, then decimal digits.
When there are no digits the value is 0 and `end` is the original pointer;
a value outside the range of `long` is clamped to `LONG_MAX`/`LONG_MIN`. -/
def strtol10 (s : List Char) : Int × List Char :=
  let s1 := s.dropWhile (fun c => c = ' ')
  let neg : Bool := if s1.head? = some '-' then true else false
  let s2 := if s1.head? = some '-' ∨ s1.head? = some '+' then s1.tail else s1
  let digits := s2.takeWhile Char.isDigit
  let rest := s2.dropWhile Char.isDigit
  if digits = [] then (0, s)
  else
    let mag : Int := (digits_to_nat digits : Int)
    (if neg then (if -mag < LONG_MIN then LONG_MIN else -mag)
     else (if LONG_MAX < mag then LONG_MAX else mag), rest)

/-- A `dart_domain_locality_t *` value during the tag lookup: a valid node, a
`NULL` pointer, or a wild pointer produced by out-of-bounds child indexing
(`domain->domains + subdomain_idx` outside the allocated array). -/
inductive domain_ptr where
  | valid (d : locality_domain)
  | null
  | wild

/-- Outcome of `dart__base__locality__domain`: `DART_OK` with the final
pointer stored through `*locality`, `DART_ERR_INVAL`, or undefined behaviour
(reading through a wild pointer). -/
inductive lookup_res where
  | ok (p : domain_ptr)
  | inval
  | ub

/-- `domain->domains + subdomain_idx` used as the next current domain: a
negative index or an index into a missing/short array is a wild pointer;
`NULL + 0` stays the `NULL` the loop's own check can catch. -/
def child_ptr (d : locality_domain) (idx : Int) : domain_ptr :=
  if idx < 0 then domain_ptr.wild
  else
    match d.domains with
    | none => if idx = 0 then domain_ptr.null else domain_ptr.wild
    | some l =>
      match l.get? idx.toNat with
      | some c => domain_ptr.valid c
      | none => domain_ptr.wild

/-- The parse-and-descend loop of `dart__base__locality__domain` (part_000
lines 614-646).  `db` models `dot_begin` (a suffix of the tag, `[]` standing
for the terminator); the guard is
`dot_begin != NULL && *dot_begin != '\u0000' && *part_begin != '\u0000'`.
Each iteration parses with `strtol` into a `long`, truncates it into the
`int` `subdomain_idx` (`int subdomain_idx = (int)(tag_part)`, line 624,
modelled by `int_of`), checks the current pointer for `NULL`, checks
`num_domains <= subdomain_idx`, and descends.  The position strictly
advances every iteration, so the fuel passed by the entry point
(tag length + 1) never runs out; the fuel-0 arm is unreachable from
`dart__base__locality__domain`. -/
def domain_lookup_loop : Nat → domain_ptr → List Char → lookup_res
  | 0, _, _ => lookup_res.ub
  | fuel + 1, cur, db =>
    if db = [] ∨ db.tail = [] then lookup_res.ok cur
    else
      let parsed := strtol10 db.tail
      let subdomain_idx := int_of parsed.1
      match cur with
      | domain_ptr.null => lookup_res.inval
      | domain_ptr.wild => lookup_res.ub
      | domain_ptr.valid d =>
        if d.num_domains ≤ subdomain_idx then lookup_res.inval
        else domain_lookup_loop fuel (child_ptr d subdomain_idx) parsed.2

/-- `dart__base__locality__domain` (part_000 lines 606-649) against a given
root.  When the tag contains no `'.'`, `strchr` returns `NULL` and the loop
is never entered: the root itself is stored through `*locality`. -/
def dart__base__locality__domain (root : locality_domain) (tag : List Char) :
    lookup_res :=
  match strchr_dot tag with
  | none => lookup_res.ok (domain_ptr.valid root)
  | some db => domain_lookup_loop (db.length + 1) (domain_ptr.valid root) db

/-- The integer parts the lookup loop parses; parsing positions do not depend
on the tree, only on the tag. -/
def parse_parts_loop : Nat → List Char → List Int
  | 0, _ => []
  | fuel + 1, db =>
    if db = [] ∨ db.tail = [] then []
    else
      let parsed := strtol10 db.tail
      parsed.1 :: parse_parts_loop fuel parsed.2

def parse_tag_parts (tag : List Char) : List Int :=
  match strchr_dot tag with
  | none => []
  | some db => parse_parts_loop (db.length + 1) db

/-- Modelled from the spec (C6's description of the lookup): "parse tag
left-to-right; at each dot-separated integer, descend `children[int]`;
`INVALID` if any integer is out of range for the current node's number of
children or an intermediate is missing; return the domain pointer
otherwise." -/
def spec_descend : locality_domain → List Int → lookup_res
  | d, [] => lookup_res.ok (domain_ptr.valid d)
  | d, v :: p =>
    if 0 ≤ v ∧ v < d.num_domains then
      match d.children.get? v.toNat with
      | some c => spec_descend c p
      | none => lookup_res.inval
    else lookup_res.inval

/-- The spec-level lookup: descend along the parsed integer parts. -/
def spec_domain_lookup (root : locality_domain) (tag : List Char) : lookup_res :=
  spec_descend root (parse_tag_parts tag)

/-- The subdomain scope assigned by the first switch of `create_subdomains`
(part_000 lines 304-342); the `default` arms leave `sub_scope` at its initial
`UNDEFINED`. -/
def sub_scope_of : dart_locality_scope_t → dart_locality_scope_t
  | dart_locality_scope_t.DART_LOCALITY_SCOPE_GLOBAL =>
      dart_locality_scope_t.DART_LOCALITY_SCOPE_NODE
  | dart_locality_scope_t.DART_LOCALITY_SCOPE_NODE =>
      dart_locality_scope_t.DART_LOCALITY_SCOPE_MODULE
  | dart_locality_scope_t.DART_LOCALITY_SCOPE_MODULE =>
      dart_locality_scope_t.DART_LOCALITY_SCOPE_NUMA
  | dart_locality_scope_t.DART_LOCALITY_SCOPE_NUMA =>
      dart_locality_scope_t.DART_LOCALITY_SCOPE_CORE
  | _ => dart_locality_scope_t.DART_LOCALITY_SCOPE_UNDEFINED

/-- `host_names[i]`.  A read beyond the array is undefined in C; its value is
never relied upon in the claims, so the default stands in for it. -/
def host_name_at (topo : dart_host_topology_t) (i : Nat) : String :=
  topo.host_names.getD i ""

/-- The `num_domains` computed by the first switch of `create_subdomains`
(part_000 lines 304-342).  `domain->num_domains` is an `int` field, so the
stored value lies in the `int` range: the store goes through `int_of`. -/
def num_subdomains_of (topo : dart_host_topology_t) (d : domain_data) : Int :=
  int_of (match d.scope with
  | dart_locality_scope_t.DART_LOCALITY_SCOPE_GLOBAL => (topo.num_nodes : Int)
  | dart_locality_scope_t.DART_LOCALITY_SCOPE_NODE => d.hwinfo.num_modules
  | dart_locality_scope_t.DART_LOCALITY_SCOPE_MODULE => d.hwinfo.num_numa
  | dart_locality_scope_t.DART_LOCALITY_SCOPE_NUMA => d.num_units
  | _ => 0)

/-- The `MODULE` case of the first switch also resolves the module's own unit
count from the host topology (part_000 lines 320-333);
`domain->num_units = num_module_units` at line 333 stores a `size_t` count
into the `int` field. -/
def update_own_domain (topo : dart_host_topology_t) (d : domain_data) : domain_data :=
  if d.scope = dart_locality_scope_t.DART_LOCALITY_SCOPE_MODULE then
    { d with
      num_units :=
        int_of ((topo.module_units (host_name_at topo d.relative_index)).length : Int) }
  else d

/-- Lines 367-385 of `create_subdomains`: `domain_locality_init` on the fresh
child followed by the copy-on-descent initialisation and tag formation --
the parent tag is prepended only when `domain->level > 0`, then `".%d"` with
the relative index is appended. -/
def init_subdomain_data (parent : domain_data) (sub_scope : dart_locality_scope_t)
    (rel_idx : Nat) : domain_data :=
  { domain_tag :=
      (if 0 < parent.level then parent.domain_tag else []) ++ '.' :: nat_digits rel_idx
    host := parent.host
    scope := sub_scope
    level := parent.level + 1
    relative_index := rel_idx
    node_id := parent.node_id
    hwinfo := parent.hwinfo
    num_nodes := -1
    num_units := -1
    unit_ids := [] }

/-- `dart__base__locality__create_global_subdomain` (part_000 lines 423-457);
`subdomain->num_units = num_node_units` at line 451 stores a `size_t` count
into the `int` field. -/
def dart__base__locality__create_global_subdomain (topo : dart_host_topology_t)
    (global_domain : domain_data) (sub : domain_data) (rel_idx : Nat) : domain_data :=
  let node_hostname := host_name_at topo rel_idx
  let node_unit_ids := topo.node_units node_hostname
  { sub with
    host := node_hostname
    node_id := (rel_idx : Int)
    num_nodes := 1
    num_units := int_of (node_unit_ids.length : Int)
    unit_ids := node_unit_ids }

/-- `dart__base__locality__create_node_subdomain` (part_000 lines 459-493);
the source's duplicated `strncpy` of the host name has no extra effect;
`subdomain->num_units = num_module_units` at line 487 stores a `size_t`
count into the `int` field. -/
def dart__base__locality__create_node_subdomain (topo : dart_host_topology_t)
    (node_domain : domain_data) (sub : domain_data) (rel_idx : Nat) : domain_data :=
  let module_hostname := host_name_at topo rel_idx
  let module_unit_ids := topo.module_units module_hostname
  { sub with
    host := module_hostname
    num_nodes := 1
    num_units := int_of (module_unit_ids.length : Int)
    unit_ids := module_unit_ids }

/-- `dart__base__locality__create_module_subdomain` (part_000 lines 495-560):
the two passes over the module's units (count, then assign in order) are the
filter of units whose NUMA id equals `rel_idx`.  `unit_numa_id` models
`dart__base__unit_locality__at(unit)->hwinfo.numa_id`; lines 537 and 539
store the `size_t` count `num_numa_units` into the `int` fields
`hwinfo.num_cores` and `num_units`. -/
def dart__base__locality__create_module_subdomain (topo : dart_host_topology_t)
    (unit_numa_id : Int → Int) (module_domain : domain_data) (sub : domain_data)
    (rel_idx : Nat) : domain_data :=
  let module_unit_ids := topo.module_units module_domain.host
  let numa_unit_ids := module_unit_ids.filter (fun u => unit_numa_id u == (rel_idx : Int))
  { sub with
    host := module_domain.host
    hwinfo := { sub.hwinfo with
      num_modules := 1, num_numa := 1, num_cores := int_of (numa_unit_ids.length : Int) }
    num_nodes := 1
    num_units := int_of (numa_unit_ids.length : Int)
    unit_ids := numa_unit_ids }

/-- `dart__base__locality__create_numa_subdomain` (part_000 lines 562-604):
balanced split into slices of `num_units / num_domains` consecutive units
(C `int` division truncates toward zero: `Int.tdiv`); slice `rel_idx` takes
the units at indices `rel_idx*s .. rel_idx*s + s - 1` of the parent.
`parent_num_domains` is `numa_domain->num_domains` as set by the caller's
first switch.  Line 582 stores the `size_t` local `num_uma_units` into the
`int` field `num_units`; the loop at line 585 runs over that stored field,
and the unit index at line 586 is the `size_t` expression
`(rel_idx * num_uma_units) + u` converted into an `int` (both conversions
reduce modulo `2^32` into the `int` range: `int_of`).  The write of each
unit's tag into the external unit-locality map (lines 592-601) does not
touch the tree and is not modelled; an out-of-range `unit_ids` read
(undefined in C) is modelled by the default. -/
def dart__base__locality__create_numa_subdomain (numa_domain : domain_data)
    (parent_num_domains : Int) (sub : domain_data) (rel_idx : Nat) : domain_data :=
  let num_uma_units : Int := Int.tdiv numa_domain.num_units parent_num_domains
  let num_units_field : Int := int_of num_uma_units
  let unit_ids := (List.range num_units_field.toNat).map (fun u =>
    numa_domain.unit_ids.getD
      (int_of ((rel_idx : Int) * num_uma_units + (u : Int))).toNat 0)
  { sub with
    hwinfo := { sub.hwinfo with
      num_modules := 1, num_numa := 1
      num_cores := Int.tdiv numa_domain.hwinfo.num_cores parent_num_domains }
    num_nodes := 1
    num_units := num_units_field
    unit_ids := unit_ids }

/-- The `CORE` case of the dispatch switch (part_000 lines 404-412).  A parent
of scope `CORE` receives `num_domains = 0` from the first switch and returns
before the loop, so this branch is unreachable; it is modelled as written. -/
def create_core_subdomain (core_domain : domain_data) (sub : domain_data)
    (rel_idx : Nat) : domain_data :=
  { sub with
    hwinfo := { sub.hwinfo with num_modules := 1, num_numa := 1, num_cores := 1 }
    num_nodes := 1
    num_units := 1
    unit_ids := [core_domain.unit_ids.getD rel_idx 0] }

/-- Monadic map over `Option` with plain structural equations. -/
def opt_map {α β : Type} (f : α → Option β) : List α → Option (List β)
  | [] => some []
  | a :: l =>
    match f a, opt_map f l with
    | some b, some l' => some (b :: l')
    | _, _ => none

/-- The per-child body of the subdomain loop (part_000 lines 362-412): the
common initialisation of lines 367-385 followed by the dispatch switch on the
parent's scope.  `nd` is the parent's `num_domains` as set by the first
switch (`create_numa_subdomain` reads it through the parent). -/
def child_seed (topo : dart_host_topology_t) (unit_numa_id : Int → Int)
    (d : domain_data) (nd : Int) (rel_idx : Nat) : domain_data :=
  let sub0 := init_subdomain_data d (sub_scope_of d.scope) rel_idx
  match d.scope with
  | dart_locality_scope_t.DART_LOCALITY_SCOPE_GLOBAL =>
    dart__base__locality__create_global_subdomain topo d sub0 rel_idx
  | dart_locality_scope_t.DART_LOCALITY_SCOPE_NODE =>
    dart__base__locality__create_node_subdomain topo d sub0 rel_idx
  | dart_locality_scope_t.DART_LOCALITY_SCOPE_MODULE =>
    dart__base__locality__create_module_subdomain topo unit_numa_id d sub0 rel_idx
  | dart_locality_scope_t.DART_LOCALITY_SCOPE_NUMA =>
    dart__base__locality__create_numa_subdomain d nd sub0 rel_idx
  | dart_locality_scope_t.DART_LOCALITY_SCOPE_CORE =>
    create_core_subdomain d sub0 rel_idx
  | dart_locality_scope_t.DART_LOCALITY_SCOPE_UNDEFINED => sub0

/-- `dart__base__locality__create_subdomains` (part_000 lines 291-421).
`fuel` bounds the recursion depth; each level descends one scope, so any
`fuel ≥ 5` is exhaustive from a `GLOBAL` root.  The fuel-0 arm returns
`none`, as does the `UNDEFINED`-scope error path (lines 305-308); the
`DART_ASSERT_RETURNS` around the recursive call makes a child failure fail
the parent. -/
def dart__base__locality__create_subdomains (topo : dart_host_topology_t)
    (unit_numa_id : Int → Int) : Nat → domain_data → Option locality_domain
  | 0, _ => none
  | fuel + 1, d0 =>
    if d0.scope = dart_locality_scope_t.DART_LOCALITY_SCOPE_UNDEFINED then none
    else
      let d := update_own_domain topo d0
      let nd := num_subdomains_of topo d
      if nd = 0 then some (locality_domain.mk d 0 none)
      else
        match opt_map (fun rel_idx =>
          dart__base__locality__create_subdomains topo unit_numa_id fuel
            (child_seed topo unit_numa_id d nd rel_idx))
          (List.range nd.toNat) with
        | some children => some (locality_domain.mk d nd (some children))
        | none => none

/-- The node of a tree at a child-index path (`[]` is the root itself). -/
def node_at : locality_domain → List Nat → Option locality_domain
  | t, [] => some t
  | t, i :: p =>
    match t.children.get? i with
    | some c => node_at c p
    | none => none

mutual
/-- Structural well-formedness: every node's child-array length agrees with
its `num_domains` field, and a node that carries a child array has the
`num_domains` an `int` field can hold (below `2^31`) -- `create_subdomains`
stores `num_domains` through `int_of`, so every tree it builds satisfies
this. -/
def tree_wf : locality_domain → Bool
  | locality_domain.mk _ nd none => 0 == nd.toNat
  | locality_domain.mk _ nd (some l) =>
    (l.length == nd.toNat && decide (nd < 2147483648)) && tree_wf_list l

def tree_wf_list : List locality_domain → Bool
  | [] => true
  | t :: ts => tree_wf t && tree_wf_list ts
end

lemma nat_digits_aux_eq (n : Nat) : ∀ acc, nat_digits_aux n acc = nat_digits n ++ acc := by
  induction n using Nat.strong_induction_on with
  | _ n ih =>
    intro acc
    by_cases h : n < 10
    · rw [nat_digits_aux, if_pos h, nat_digits, nat_digits_aux, if_pos h]
      rfl
    · have hd : n / 10 < n := Nat.div_lt_self (by omega) (by omega)
      have hn : nat_digits n = nat_digits (n / 10) ++ [digit_char (n % 10)] := by
        rw [nat_digits, nat_digits_aux, if_neg h, ih _ hd]
      rw [nat_digits_aux, if_neg h, ih _ hd, hn, List.append_assoc]
      rfl

lemma nat_digits_ne_nil (n : Nat) : nat_digits n ≠ [] := by
  rw [nat_digits, nat_digits_aux]
  by_cases h : n < 10
  · rw [if_pos h]; exact List.cons_ne_nil _ _
  · rw [if_neg h, nat_digits_aux_eq]
    intro hcontra
    exact List.cons_ne_nil _ _ (List.append_eq_nil.mp hcontra).2

lemma digit_char_isDigit (n : Nat) : (digit_char n).isDigit = true := by
  unfold digit_char
  split <;> decide

lemma digit_val_digit_char {n : Nat} (h : n < 10) : digit_val (digit_char n) = n := by
  interval_cases n <;> decide

lemma nat_digits_all_digits (n : Nat) : ∀ c ∈ nat_digits n, c.isDigit = true := by
  induction n using Nat.strong_induction_on with
  | _ n ih =>
    intro c hc
    rw [nat_digits, nat_digits_aux] at hc
    by_cases h : n < 10
    · rw [if_pos h] at hc
      rcases List.mem_singleton.mp hc with rfl
      exact digit_char_isDigit n
    · rw [if_neg h, nat_digits_aux_eq] at hc
      rcases List.mem_append.mp hc with h1 | h1
      · exact ih _ (Nat.div_lt_self (by omega) (by omega)) c h1
      · rcases List.mem_singleton.mp h1 with rfl
        exact digit_char_isDigit _

lemma digits_to_nat_snoc (ds : List Char) (c : Char) :
    digits_to_nat (ds ++ [c]) = 10 * digits_to_nat ds + digit_val c := by
  unfold digits_to_nat
  rw [List.foldl_append]
  simp [Nat.mul_comm]

lemma digits_to_nat_nat_digits (n : Nat) : digits_to_nat (nat_digits n) = n := by
  induction n using Nat.strong_induction_on with
  | _ n ih =>
    rw [nat_digits, nat_digits_aux]
    by_cases h : n < 10
    · rw [if_pos h]
      show digits_to_nat [digit_char n] = n
      unfold digits_to_nat
      simp [digit_val_digit_char h]
    · rw [if_neg h, nat_digits_aux_eq, digits_to_nat_snoc,
        ih _ (Nat.div_lt_self (by omega) (by omega)),
        digit_val_digit_char (Nat.mod_lt _ (by omega))]
      omega

lemma takeWhile_append_all {p : Char → Bool} {xs : List Char}
    (h : ∀ c ∈ xs, p c = true) (ys : List Char) :
    (xs ++ ys).takeWhile p = xs ++ ys.takeWhile p := by
  induction xs with
  | nil => simp
  | cons a l ih =>
    have ha := h a (List.mem_cons_self a l)
    have ih2 := ih (fun c hc => h c (List.mem_cons_of_mem a hc))
    simp [List.takeWhile_cons, ha, ih2]

lemma dropWhile_append_all {p : Char → Bool} {xs : List Char}
    (h : ∀ c ∈ xs, p c = true) (ys : List Char) :
    (xs ++ ys).dropWhile p = ys.dropWhile p := by
  induction xs with
  | nil => simp
  | cons a l ih =>
    have ha := h a (List.mem_cons_self a l)
    have ih2 := ih (fun c hc => h c (List.mem_cons_of_mem a hc))
    simp [List.dropWhile_cons, ha, ih2]

lemma takeWhile_head_false {p : Char → Bool} : ∀ {ys : List Char},
    (∀ c, ys.head? = some c → p c = false) → ys.takeWhile p = [] := by
  intro ys h
  cases ys with
  | nil => rfl
  | cons a l => simp [List.takeWhile_cons, h a rfl]

lemma dropWhile_head_false {p : Char → Bool} : ∀ {ys : List Char},
    (∀ c, ys.head? = some c → p c = false) → ys.dropWhile p = ys := by
  intro ys h
  cases ys with
  | nil => rfl
  | cons a l => simp [List.dropWhile_cons, h a rfl]

lemma isDigit_ne_space {c : Char} (h : c.isDigit = true) : (c = ' ') = False := by
  simp only [eq_iff_iff, iff_false]
  intro hc; rw [hc] at h; exact absurd h (by decide)

lemma isDigit_ne_minus {c : Char} (h : c.isDigit = true) : c ≠ '-' := by
  intro hc; rw [hc] at h; exact absurd h (by decide)

lemma isDigit_ne_plus {c : Char} (h : c.isDigit = true) : c ≠ '+' := by
  intro hc; rw [hc] at h; exact absurd h (by decide)

lemma length_dropWhile_le (p : Char → Bool) (l : List Char) :
    (l.dropWhile p).length ≤ l.length := by
  induction l with
  | nil => simp
  | cons a l ih =>
    by_cases h : p a
    · simp only [List.dropWhile_cons, h, if_true]
      simp only [List.length_cons]
      omega
    · simp [List.dropWhile_cons, h]

lemma int_of_lt (v : Int) : int_of v < 2147483648 := by
  unfold int_of
  have h := Int.emod_lt_of_pos (v + 2147483648)
    (by norm_num : (0 : Int) < 4294967296)
  omega

lemma int_of_lb (v : Int) : -2147483648 ≤ int_of v := by
  unfold int_of
  have h := Int.emod_nonneg (v + 2147483648)
    (by norm_num : (4294967296 : Int) ≠ 0)
  omega

lemma int_of_eq_self {v : Int} (h1 : -2147483648 ≤ v) (h2 : v < 2147483648) :
    int_of v = v := by
  unfold int_of
  rw [Int.emod_eq_of_lt (by omega) (by omega)]
  omega

lemma int_of_idem (v : Int) : int_of (int_of v) = int_of v :=
  int_of_eq_self (int_of_lb v) (int_of_lt v)

lemma int_of_le_self {v : Int} (h : 0 ≤ v) : int_of v ≤ v := by
  by_cases hv : v < 2147483648
  · rw [int_of_eq_self (by omega) hv]
  · have := int_of_lt v
    omega

lemma int_of_one : int_of 1 = 1 :=
  int_of_eq_self (by norm_num) (by norm_num)

lemma num_subdomains_lt (topo : dart_host_topology_t) (d : domain_data) :
    num_subdomains_of topo d < 2147483648 :=
  int_of_lt _

lemma strtol10_rest_length (s : List Char) : (strtol10 s).2.length ≤ s.length := by
  unfold strtol10
  dsimp only
  set s1 := s.dropWhile (fun c => c = ' ') with hs1
  set s2 := if s1.head? = some '-' ∨ s1.head? = some '+' then s1.tail else s1 with hs2
  have h1 : s1.length ≤ s.length := by rw [hs1]; exact length_dropWhile_le _ s
  have h2 : s2.length ≤ s1.length := by
    rw [hs2]
    split
    · simp only [List.length_tail]; omega
    · exact Nat.le_refl _
  have h3 : (s2.dropWhile Char.isDigit).length ≤ s2.length := length_dropWhile_le _ _
  split
  · exact Nat.le_refl s.length
  · dsimp only
    omega

lemma strtol10_digits (n : Nat) (rest : List Char) (hn : (n : Int) ≤ LONG_MAX)
    (hrest : ∀ c, rest.head? = some c → c.isDigit = false) :
    strtol10 (nat_digits n ++ rest) = ((n : Int), rest) := by
  obtain ⟨d, ds, hds⟩ : ∃ d ds, nat_digits n = d :: ds := by
    cases hnd : nat_digits n with
    | nil => exact absurd hnd (nat_digits_ne_nil n)
    | cons d ds => exact ⟨d, ds, rfl⟩
  have hdigs : ∀ c ∈ d :: ds, c.isDigit = true := by
    rw [← hds]; exact nat_digits_all_digits n
  have hdig : d.isDigit = true := hdigs d (List.mem_cons_self d ds)
  have hdigs2 : ∀ c ∈ ds, c.isDigit = true :=
    fun c hc => hdigs c (List.mem_cons_of_mem d hc)
  have hne_space : (d = ' ') = False := isDigit_ne_space hdig
  have hne_minus : d ≠ '-' := isDigit_ne_minus hdig
  have hne_plus : d ≠ '+' := isDigit_ne_plus hdig
  have htake2 : (ds ++ rest).takeWhile Char.isDigit = ds := by
    rw [takeWhile_append_all hdigs2 rest, takeWhile_head_false hrest, List.append_nil]
  have hdrop2 : (ds ++ rest).dropWhile Char.isDigit = rest := by
    rw [dropWhile_append_all hdigs2 rest, dropWhile_head_false hrest]
  unfold strtol10
  rw [hds]
  simp only [List.cons_append, List.dropWhile_cons, List.takeWhile_cons, hne_space,
    decide_False, Bool.false_eq_true, if_false, List.head?_cons, Option.some.injEq,
    hdig, if_true, htake2, hdrop2]
  rw [if_neg hne_minus]
  have hor : (d = '-' ∨ d = '+') = False := by
    simp only [eq_iff_iff, iff_false]
    rintro (h | h)
    · exact hne_minus h
    · exact hne_plus h
  simp only [hor, if_false, Bool.false_eq_true, List.takeWhile_cons, List.dropWhile_cons,
    hdig, if_true, htake2, hdrop2]
  rw [← hds, digits_to_nat_nat_digits, if_neg (nat_digits_ne_nil n),
    if_neg (not_lt.mpr hn)]

lemma opt_map_cons_inv {α β : Type} {f : α → Option β} {a : α} {l : List α}
    {l' : List β} (h : opt_map f (a :: l) = some l') :
    ∃ b l2, f a = some b ∧ opt_map f l = some l2 ∧ l' = b :: l2 := by
  unfold opt_map at h
  cases hfa : f a with
  | none => rw [hfa] at h; simp at h
  | some b =>
    cases hom : opt_map f l with
    | none => rw [hfa, hom] at h; simp at h
    | some l2 =>
      rw [hfa, hom] at h
      exact ⟨b, l2, rfl, rfl, (Option.some.inj h).symm⟩

lemma opt_map_length {α β : Type} {f : α → Option β} :
    ∀ {l : List α} {l' : List β}, opt_map f l = some l' → l'.length = l.length := by
  intro l
  induction l with
  | nil =>
    intro l' h
    unfold opt_map at h
    rw [← Option.some.inj h]
    rfl
  | cons a l ih =>
    intro l' h
    obtain ⟨b, l2, _, hom, rfl⟩ := opt_map_cons_inv h
    simp [ih hom]

lemma opt_map_get? {α β : Type} {f : α → Option β} :
    ∀ {l : List α} {l' : List β}, opt_map f l = some l' →
      ∀ (i : Nat) (b : β), l'.get? i = some b → ∃ a, l.get? i = some a ∧ f a = some b := by
  intro l
  induction l with
  | nil =>
    intro l' h i b hb
    unfold opt_map at h
    rw [← Option.some.inj h] at hb
    simp at hb
  | cons a l ih =>
    intro l' h i b hb
    obtain ⟨b0, l2, hfa, hom, rfl⟩ := opt_map_cons_inv h
    cases i with
    | zero =>
      simp only [List.get?_cons_zero, Option.some.injEq] at hb
      exact ⟨a, rfl, hb ▸ hfa⟩
    | succ i =>
      simp only [List.get?_cons_succ] at hb ⊢
      exact ih hom i b hb

lemma opt_map_mem {α β : Type} {f : α → Option β} :
    ∀ {l : List α} {l' : List β}, opt_map f l = some l' →
      ∀ b ∈ l', ∃ a ∈ l, f a = some b := by
  intro l
  induction l with
  | nil =>
    intro l' h b hb
    unfold opt_map at h
    rw [← Option.some.inj h] at hb
    simp at hb
  | cons a l ih =>
    intro l' h b hb
    obtain ⟨b0, l2, hfa, hom, rfl⟩ := opt_map_cons_inv h
    rcases List.mem_cons.mp hb with rfl | hb2
    · exact ⟨a, List.mem_cons_self a l, hfa⟩
    · obtain ⟨a2, ha2, hfa2⟩ := ih hom b hb2
      exact ⟨a2, List.mem_cons_of_mem a ha2, hfa2⟩

lemma range_get?_inv {n i a : Nat} (h : (List.range n).get? i = some a) :
    a = i ∧ i < n := by
  have hlen : i < n := by
    by_contra hc
    rw [List.get?_eq_none.mpr (by simpa using Nat.le_of_not_lt hc)] at h
    exact Option.noConfusion h
  rw [List.get?_range hlen] at h
  exact ⟨(Option.some.inj h).symm, hlen⟩

lemma create_subdomains_inv {topo : dart_host_topology_t} {f : Int → Int}
    {fuel : Nat} {d : domain_data} {t : locality_domain}
    (h : dart__base__locality__create_subdomains topo f (fuel + 1) d = some t) :
    d.scope ≠ dart_locality_scope_t.DART_LOCALITY_SCOPE_UNDEFINED ∧
    ((num_subdomains_of topo (update_own_domain topo d) = 0 ∧
        t = locality_domain.mk (update_own_domain topo d) 0 none) ∨
      (num_subdomains_of topo (update_own_domain topo d) ≠ 0 ∧
        ∃ children,
          opt_map (fun rel_idx =>
              dart__base__locality__create_subdomains topo f fuel
                (child_seed topo f (update_own_domain topo d)
                  (num_subdomains_of topo (update_own_domain topo d)) rel_idx))
            (List.range (num_subdomains_of topo (update_own_domain topo d)).toNat) =
            some children ∧
          t = locality_domain.mk (update_own_domain topo d)
            (num_subdomains_of topo (update_own_domain topo d)) (some children))) := by
  unfold dart__base__locality__create_subdomains at h
  by_cases hu : d.scope = dart_locality_scope_t.DART_LOCALITY_SCOPE_UNDEFINED
  · rw [if_pos hu] at h; simp at h
  · rw [if_neg hu] at h
    refine ⟨hu, ?_⟩
    dsimp only at h
    by_cases hnd : num_subdomains_of topo (update_own_domain topo d) = 0
    · rw [if_pos hnd] at h
      exact Or.inl ⟨hnd, (Option.some.inj h).symm⟩
    · rw [if_neg hnd] at h
      refine Or.inr ⟨hnd, ?_⟩
      cases hom : opt_map (fun rel_idx =>
          dart__base__locality__create_subdomains topo f fuel
            (child_seed topo f (update_own_domain topo d)
              (num_subdomains_of topo (update_own_domain topo d)) rel_idx))
          (List.range (num_subdomains_of topo (update_own_domain topo d)).toNat) with
      | none => rw [hom] at h; simp at h
      | some children =>
        rw [hom] at h
        exact ⟨children, rfl, (Option.some.inj h).symm⟩

lemma create_subdomains_fuel_zero {topo : dart_host_topology_t} {f : Int → Int}
    {d : domain_data} {t : locality_domain}
    (h : dart__base__locality__create_subdomains topo f 0 d = some t) : False := by
  simp [dart__base__locality__create_subdomains] at h

lemma create_subdomains_root_data {topo : dart_host_topology_t} {f : Int → Int}
    {fuel : Nat} {d : domain_data} {t : locality_domain}
    (h : dart__base__locality__create_subdomains topo f fuel d = some t) :
    t.data = update_own_domain topo d := by
  cases fuel with
  | zero => exact absurd h (by simp [dart__base__locality__create_subdomains])
  | succ fuel =>
    rcases (create_subdomains_inv h).2 with ⟨_, rfl⟩ | ⟨_, children, _, rfl⟩ <;> rfl

lemma create_subdomains_child {topo : dart_host_topology_t} {f : Int → Int}
    {fuel : Nat} {d : domain_data} {t : locality_domain} {i : Nat} {c : locality_domain}
    (h : dart__base__locality__create_subdomains topo f (fuel + 1) d = some t)
    (hc : t.children.get? i = some c) :
    i < (num_subdomains_of topo (update_own_domain topo d)).toNat ∧
    dart__base__locality__create_subdomains topo f fuel
      (child_seed topo f (update_own_domain topo d)
        (num_subdomains_of topo (update_own_domain topo d)) i) = some c := by
  rcases (create_subdomains_inv h).2 with ⟨_, rfl⟩ | ⟨hnd, children, hom, rfl⟩
  · simp [locality_domain.children] at hc
  · simp only [locality_domain.children] at hc
    obtain ⟨a, ha, hfa⟩ := opt_map_get? hom i c hc
    obtain ⟨rfl, hlt⟩ := range_get?_inv ha
    exact ⟨hlt, hfa⟩

lemma tree_wf_list_mem : ∀ {l : List locality_domain}, tree_wf_list l = true →
    ∀ c ∈ l, tree_wf c = true := by
  intro l
  induction l with
  | nil => intro _ c hc; simp at hc
  | cons a l ih =>
    intro h c hc
    rw [tree_wf_list, Bool.and_eq_true] at h
    rcases List.mem_cons.mp hc with rfl | hc2
    · exact h.1
    · exact ih h.2 c hc2

lemma tree_wf_list_of_all : ∀ {l : List locality_domain},
    (∀ c ∈ l, tree_wf c = true) → tree_wf_list l = true := by
  intro l
  induction l with
  | nil => intro _; rfl
  | cons a l ih =>
    intro h
    rw [tree_wf_list, Bool.and_eq_true]
    exact ⟨h a (List.mem_cons_self a l), ih (fun c hc => h c (List.mem_cons_of_mem a hc))⟩

lemma tree_wf_children_length {t : locality_domain} (h : tree_wf t = true) :
    t.children.length = t.num_domains.toNat := by
  cases t with
  | mk d nd cs =>
    cases cs with
    | none =>
      rw [tree_wf] at h
      have h0 : 0 = nd.toNat := eq_of_beq h
      simp [locality_domain.children, locality_domain.num_domains, ← h0]
    | some l =>
      rw [tree_wf, Bool.and_eq_true, Bool.and_eq_true] at h
      have h0 : l.length = nd.toNat := eq_of_beq h.1.1
      simp [locality_domain.children, locality_domain.num_domains, h0]

lemma tree_wf_index_bound {t : locality_domain} (h : tree_wf t = true)
    {i : Nat} (hi : i < t.children.length) : i < 2147483648 := by
  cases t with
  | mk d nd cs =>
    cases cs with
    | none => simp [locality_domain.children] at hi
    | some l =>
      rw [tree_wf, Bool.and_eq_true, Bool.and_eq_true] at h
      have h0 : l.length = nd.toNat := eq_of_beq h.1.1
      have h1 : nd < 2147483648 := of_decide_eq_true h.1.2
      simp only [locality_domain.children] at hi
      omega

lemma tree_wf_child {t c : locality_domain} (h : tree_wf t = true)
    (hc : c ∈ t.children) : tree_wf c = true := by
  cases t with
  | mk d nd cs =>
    cases cs with
    | none => simp [locality_domain.children] at hc
    | some l =>
      rw [tree_wf, Bool.and_eq_true] at h
      exact tree_wf_list_mem h.2 c hc

lemma create_subdomains_wf {topo : dart_host_topology_t} {f : Int → Int} :
    ∀ {fuel : Nat} {d : domain_data} {t : locality_domain},
      dart__base__locality__create_subdomains topo f fuel d = some t →
      tree_wf t = true := by
  intro fuel
  induction fuel with
  | zero => intro d t h; exact absurd h create_subdomains_fuel_zero
  | succ fuel ih =>
    intro d t h
    rcases (create_subdomains_inv h).2 with ⟨hnd, rfl⟩ | ⟨hnd, children, hom, rfl⟩
    · rw [tree_wf]
      simp [hnd]
    · rw [tree_wf, Bool.and_eq_true, Bool.and_eq_true]
      refine ⟨⟨?_, decide_eq_true (num_subdomains_lt topo _)⟩, ?_⟩
      · rw [opt_map_length hom, List.length_range]
        simp
      · refine tree_wf_list_of_all ?_
        intro c hc
        obtain ⟨a, _, hfa⟩ := opt_map_mem hom c hc
        exact ih hfa

lemma update_own_scope (topo : dart_host_topology_t) (d : domain_data) :
    (update_own_domain topo d).scope = d.scope := by
  unfold update_own_domain; split <;> rfl

lemma update_own_tag (topo : dart_host_topology_t) (d : domain_data) :
    (update_own_domain topo d).domain_tag = d.domain_tag := by
  unfold update_own_domain; split <;> rfl

lemma update_own_level (topo : dart_host_topology_t) (d : domain_data) :
    (update_own_domain topo d).level = d.level := by
  unfold update_own_domain; split <;> rfl

lemma update_own_of_ne_module {topo : dart_host_topology_t} {d : domain_data}
    (h : d.scope ≠ dart_locality_scope_t.DART_LOCALITY_SCOPE_MODULE) :
    update_own_domain topo d = d := by
  unfold update_own_domain; exact if_neg h

lemma child_seed_tag (topo : dart_host_topology_t) (f : Int → Int)
    (d : domain_data) (nd : Int) (i : Nat) :
    (child_seed topo f d nd i).domain_tag =
      (if 0 < d.level then d.domain_tag else []) ++ '.' :: nat_digits i := by
  unfold child_seed
  cases hs : d.scope <;> rfl

lemma child_seed_level (topo : dart_host_topology_t) (f : Int → Int)
    (d : domain_data) (nd : Int) (i : Nat) :
    (child_seed topo f d nd i).level = d.level + 1 := by
  unfold child_seed
  cases hs : d.scope <;> rfl

lemma child_seed_relative_index (topo : dart_host_topology_t) (f : Int → Int)
    (d : domain_data) (nd : Int) (i : Nat) :
    (child_seed topo f d nd i).relative_index = i := by
  unfold child_seed
  cases hs : d.scope <;> rfl

lemma child_seed_scope (topo : dart_host_topology_t) (f : Int → Int)
    (d : domain_data) (nd : Int) (i : Nat) :
    (child_seed topo f d nd i).scope = sub_scope_of d.scope := by
  unfold child_seed
  cases hs : d.scope <;> simp [hs, init_subdomain_data,
    dart__base__locality__create_global_subdomain,
    dart__base__locality__create_node_subdomain,
    dart__base__locality__create_module_subdomain,
    dart__base__locality__create_numa_subdomain,
    create_core_subdomain]

/-- The tag of the node at child path `p` below a level-0 root. -/
def tag_path : List Nat → List Char
  | [] => []
  | i :: p => '.' :: (nat_digits i ++ tag_path p)

lemma tag_path_head_not_digit (p : List Nat) :
    ∀ c, (tag_path p).head? = some c → c.isDigit = false := by
  cases p with
  | nil => intro c h; simp [tag_path] at h
  | cons i p =>
    intro c h
    simp only [tag_path, List.head?_cons, Option.some.injEq] at h
    rw [← h]; decide

lemma node_at_cons {t x : locality_domain} {i : Nat} {p : List Nat}
    (h : node_at t (i :: p) = some x) :
    ∃ c, t.children.get? i = some c ∧ node_at c p = some x := by
  rw [node_at] at h
  cases hc : t.children.get? i with
  | none => rw [hc] at h; exact Option.noConfusion h
  | some c => rw [hc] at h; exact ⟨c, rfl, h⟩

lemma build_tag {topo : dart_host_topology_t} {f : Int → Int} :
    ∀ (p : List Nat) {fuel : Nat} {d : domain_data} {t x : locality_domain},
      0 ≤ d.level →
      dart__base__locality__create_subdomains topo f fuel d = some t →
      node_at t p = some x → p ≠ [] →
      x.data.domain_tag = (if 0 < d.level then d.domain_tag else []) ++ tag_path p := by
  intro p
  induction p with
  | nil => intro _ _ _ _ _ _ _ hne; exact absurd rfl hne
  | cons i p ih =>
    intro fuel d t x hlev hb hx _
    cases fuel with
    | zero => exact absurd hb create_subdomains_fuel_zero
    | succ fuel =>
      obtain ⟨c, hc, hx2⟩ := node_at_cons hx
      obtain ⟨hlt, hcb⟩ := create_subdomains_child hb hc
      set seed := child_seed topo f (update_own_domain topo d)
        (num_subdomains_of topo (update_own_domain topo d)) i with hseed
      have hst : seed.domain_tag =
          (if 0 < d.level then d.domain_tag else []) ++ '.' :: nat_digits i := by
        rw [hseed, child_seed_tag, update_own_level, update_own_tag]
      have hsl : seed.level = d.level + 1 := by
        rw [hseed, child_seed_level, update_own_level]
      cases p with
      | nil =>
        have hcx : c = x := Option.some.inj hx2
        subst hcx
        have hdata := create_subdomains_root_data hcb
        rw [hdata, update_own_tag, hst, tag_path]
        simp [tag_path]
      | cons j p2 =>
        have hrec := @ih fuel seed _ _ (by omega) hcb hx2 (by simp)
        rw [hrec, if_pos (by omega), hst, tag_path]
        simp [tag_path]

lemma lookup_descend :
    ∀ (p : List Nat) (fuel : Nat) (t x : locality_domain),
      (tag_path p).length < fuel →
      tree_wf t = true → node_at t p = some x →
      domain_lookup_loop fuel (domain_ptr.valid t) (tag_path p) =
        lookup_res.ok (domain_ptr.valid x) := by
  intro p
  induction p with
  | nil =>
    intro fuel t x hf hwf hx
    cases fuel with
    | zero => simp [tag_path] at hf
    | succ fuel =>
      have hx2 : t = x := Option.some.inj hx
      rw [← hx2, domain_lookup_loop]
      simp [tag_path]
  | cons i p ih =>
    intro fuel t x hf hwf hx
    cases fuel with
    | zero => simp [tag_path] at hf
    | succ fuel =>
      obtain ⟨c, hc, hx2⟩ := node_at_cons hx
      have hdig1 : 1 ≤ (nat_digits i).length :=
        List.length_pos.mpr (nat_digits_ne_nil i)
      have hilen : i < t.children.length := by
        rcases List.get?_eq_some.mp hc with ⟨hl, _⟩
        exact hl
      have hlen := tree_wf_children_length hwf
      have hib : i < 2147483648 := tree_wf_index_bound hwf hilen
      have hstr : strtol10 (nat_digits i ++ tag_path p) = ((i : Int), tag_path p) :=
        strtol10_digits i _ (by unfold LONG_MAX; omega) (tag_path_head_not_digit p)
      have hcast : int_of ((i : Nat) : Int) = ((i : Nat) : Int) :=
        int_of_eq_self (by omega) (by omega)
      rw [tag_path, domain_lookup_loop]
      rw [if_neg (by simp [List.append_eq_nil, nat_digits_ne_nil i])]
      simp only [List.tail_cons]
      rw [hstr]
      dsimp only
      rw [hcast]
      rw [if_neg (by omega)]
      have hchild : child_ptr t ((i : Nat) : Int) = domain_ptr.valid c := by
        unfold child_ptr
        rw [if_neg (by omega)]
        cases t with
        | mk data nd cs =>
          cases cs with
          | none => simp [locality_domain.children] at hc
          | some l =>
            simp only [locality_domain.domains]
            simp only [locality_domain.children] at hc
            have hc2 : l[i]? = some c := by simpa using hc
            simp [hc2]
      rw [hchild]
      refine ih fuel c x ?_ ?_ hx2
      · simp only [tag_path, List.length_cons, List.length_append] at hf
        omega
      · exact tree_wf_child hwf (List.get?_mem hc)

lemma strchr_dot_cons_dot (l : List Char) : strchr_dot ('.' :: l) = some ('.' :: l) := by
  simp [strchr_dot]

/-- C5: in every locality tree built by `create_subdomains` from a level-0
root tagged `"."` (the setup of `dart__base__locality__init`), looking up any
node's own `domain_tag` with `dart__base__locality__domain` returns that very
node: `domain(tag(d)) == d`, the root included. -/
theorem C5_domain_of_tag_roundtrip (topo : dart_host_topology_t) (f : Int → Int)
    (fuel : Nat) (d0 : domain_data) (t : locality_domain)
    (hlevel : d0.level = 0) (htag : d0.domain_tag = ['.'])
    (hb : dart__base__locality__create_subdomains topo f fuel d0 = some t)
    (p : List Nat) (x : locality_domain) (hx : node_at t p = some x) :
    dart__base__locality__domain t x.data.domain_tag =
      lookup_res.ok (domain_ptr.valid x) := by
  cases p with
  | nil =>
    have hx2 : t = x := Option.some.inj hx
    subst hx2
    have ht : t.data.domain_tag = ['.'] := by
      rw [create_subdomains_root_data hb, update_own_tag, htag]
    rw [ht]
    unfold dart__base__locality__domain
    rw [strchr_dot_cons_dot]
    show domain_lookup_loop 2 (domain_ptr.valid t) ['.'] =
      lookup_res.ok (domain_ptr.valid t)
    rw [domain_lookup_loop]
    simp
  | cons i p2 =>
    have hlev0 : (0 : Int) ≤ d0.level := by rw [hlevel]
    have htg := build_tag (i :: p2) hlev0 hb hx (by simp)
    rw [hlevel] at htg
    have htg2 : x.data.domain_tag = tag_path (i :: p2) := by simpa using htg
    rw [htg2]
    unfold dart__base__locality__domain
    have hsc : strchr_dot (tag_path (i :: p2)) = some (tag_path (i :: p2)) := by
      rw [tag_path]; exact strchr_dot_cons_dot _
    rw [hsc]
    exact lookup_descend (i :: p2) _ t x (Nat.lt_succ_self _)
      (create_subdomains_wf hb) hx

/-- A one-unit host topology for concrete witnesses. -/
def c5_topo : dart_host_topology_t :=
  { num_nodes := 1, host_names := ["h"]
    node_units := fun _ => [0], module_units := fun _ => [0] }

/-- The global root `dart__base__locality__init` would hand to
`create_subdomains` for that topology. -/
def c5_root : domain_data :=
  { domain_tag := ['.'], host := "h"
    scope := dart_locality_scope_t.DART_LOCALITY_SCOPE_GLOBAL
    level := 0, relative_index := 0, node_id := 0
    hwinfo := { num_modules := 1, num_numa := 1, num_cores := 1 }
    num_nodes := 1, num_units := 1, unit_ids := [0] }

def c5_tree : locality_domain :=
  (dart__base__locality__create_subdomains c5_topo (fun _ => 0) 5 c5_root).getD
    (locality_domain.mk c5_root 0 none)

/-- Witness for C5 at the CORE leaf of the concrete one-unit tree. -/
theorem C5_witness :
    dart__base__locality__domain c5_tree
      ((node_at c5_tree [0, 0, 0, 0]).getD c5_tree).data.domain_tag =
      lookup_res.ok (domain_ptr.valid ((node_at c5_tree [0, 0, 0, 0]).getD c5_tree)) :=
  C5_domain_of_tag_roundtrip c5_topo (fun _ => 0) 5 c5_root c5_tree rfl rfl rfl
    [0, 0, 0, 0] _ rfl

/-- The consistency a NUMA-scope domain has when produced by the module
split: its unit count is its unit array length as stored through the `int`
field, and its core count equals its unit count. -/
def numa_good (d : domain_data) : Prop :=
  d.scope = dart_locality_scope_t.DART_LOCALITY_SCOPE_NUMA →
    d.num_units = int_of (d.unit_ids.length : Int) ∧ d.hwinfo.num_cores = d.num_units

lemma child_seed_numa_good (topo : dart_host_topology_t) (f : Int → Int)
    (d : domain_data) (nd : Int) (i : Nat) : numa_good (child_seed topo f d nd i) := by
  intro hs
  rw [child_seed_scope] at hs
  have hd : d.scope = dart_locality_scope_t.DART_LOCALITY_SCOPE_MODULE := by
    cases hsc : d.scope <;> rw [hsc] at hs <;> first | rfl | simp [sub_scope_of] at hs
  unfold child_seed
  rw [hd]
  exact ⟨rfl, rfl⟩

lemma core_child_props {topo : dart_host_topology_t} {f : Int → Int} :
    ∀ (fuel : Nat) (d : domain_data) (t : locality_domain),
      numa_good d →
      dart__base__locality__create_subdomains topo f fuel d = some t →
      ∀ (p : List Nat) (par : locality_domain), node_at t p = some par →
      ∀ (i : Nat) (c : locality_domain), par.children.get? i = some c →
      c.data.scope = dart_locality_scope_t.DART_LOCALITY_SCOPE_CORE →
      c.data.num_units = 1 ∧ c.data.hwinfo.num_modules = 1 ∧
        c.data.hwinfo.num_numa = 1 ∧ c.data.hwinfo.num_cores = 1 ∧
        c.data.relative_index = i ∧
        ∃ u, par.data.unit_ids.get? i = some u ∧ c.data.unit_ids = [u] := by
  intro fuel
  induction fuel with
  | zero => intro d t _ hb; exact absurd hb create_subdomains_fuel_zero
  | succ fuel ih =>
    intro d t hgood hb p
    cases p with
    | cons j p2 =>
      intro par hpar i c hc hcore
      obtain ⟨cj, hcj, hpar2⟩ := node_at_cons hpar
      obtain ⟨_, hcb⟩ := create_subdomains_child hb hcj
      exact ih _ _ (child_seed_numa_good topo f _ _ j) hcb p2 par hpar2 i c hc hcore
    | nil =>
      intro par hpar i c hc hcore
      have hpt : t = par := Option.some.inj hpar
      subst hpt
      obtain ⟨hlt, hcb⟩ := create_subdomains_child hb hc
      have hcdata := create_subdomains_root_data hcb
      have hcscope : c.data.scope = sub_scope_of (update_own_domain topo d).scope := by
        rw [hcdata, update_own_scope, child_seed_scope]
      have hdnuma : d.scope = dart_locality_scope_t.DART_LOCALITY_SCOPE_NUMA := by
        rw [hcore, update_own_scope] at hcscope
        cases hsc : d.scope <;> rw [hsc] at hcscope <;>
          first | rfl | simp [sub_scope_of] at hcscope
      have hupd : update_own_domain topo d = d :=
        update_own_of_ne_module (by rw [hdnuma]; decide)
      rw [hupd] at hlt hcb hcdata
      obtain ⟨hnu, hnc⟩ := hgood hdnuma
      have hnd : num_subdomains_of topo d = int_of d.num_units := by
        unfold num_subdomains_of; rw [hdnuma]
      have hNw : num_subdomains_of topo d = d.num_units := by
        rw [hnd, hnu, int_of_idem, ← hnu]
      have hle : int_of (d.unit_ids.length : Int) ≤ (d.unit_ids.length : Int) :=
        int_of_le_self (by omega)
      have hNpos : 0 < num_subdomains_of topo d := by omega
      have hiL : i < d.unit_ids.length := by
        have h1 : num_subdomains_of topo d ≤ (d.unit_ids.length : Int) := by
          rw [hNw, hnu]; exact hle
        omega
      have hune : d.num_units ≠ 0 := by omega
      have hdiv : Int.tdiv d.num_units (num_subdomains_of topo d) = 1 := by
        rw [hNw]; exact Int.tdiv_self hune
      have hdivc : Int.tdiv d.hwinfo.num_cores (num_subdomains_of topo d) = 1 := by
        rw [hNw, hnc]; exact Int.tdiv_self hune
      have hcd : c.data = child_seed topo f d (num_subdomains_of topo d) i := by
        rw [hcdata, update_own_of_ne_module]
        rw [child_seed_scope, hdnuma]
        decide
      have hseed_eq : child_seed topo f d (num_subdomains_of topo d) i =
          dart__base__locality__create_numa_subdomain d (num_subdomains_of topo d)
            (init_subdomain_data d (sub_scope_of d.scope) i) i := by
        unfold child_seed; rw [hdnuma]
      obtain ⟨u, hu⟩ : ∃ u, d.unit_ids.get? i = some u := by
        cases hg : d.unit_ids.get? i with
        | none =>
          rw [List.get?_eq_none] at hg
          omega
        | some u => exact ⟨u, rfl⟩
      have hgetD : d.unit_ids.getD i 0 = u := by
        rw [List.getD_eq_get?, hu]
        rfl
      rw [create_subdomains_root_data hb, hupd]
      refine ⟨?_, ?_, ?_, ?_, ?_, u, hu, ?_⟩
      · rw [hcd, hseed_eq]
        show int_of (Int.tdiv d.num_units (num_subdomains_of topo d)) = 1
        rw [hdiv]
        exact int_of_one
      · rw [hcd, hseed_eq]; rfl
      · rw [hcd, hseed_eq]; rfl
      · rw [hcd, hseed_eq]
        show Int.tdiv d.hwinfo.num_cores (num_subdomains_of topo d) = 1
        exact hdivc
      · rw [hcd, child_seed_relative_index]
      · rw [hcd, hseed_eq]
        show (List.range (int_of (Int.tdiv d.num_units
            (num_subdomains_of topo d))).toNat).map (fun v =>
              d.unit_ids.getD (int_of (((i : Nat) : Int) *
                Int.tdiv d.num_units (num_subdomains_of topo d) + (v : Int))).toNat 0) = [u]
        rw [hdiv, int_of_one]
        show [d.unit_ids.getD
          (int_of (((i : Nat) : Int) * 1 + ((0 : Nat) : Int))).toNat 0] = [u]
        have hib2 : i < 2147483648 := by
          have := num_subdomains_lt topo d
          omega
        have hidx : (int_of (((i : Nat) : Int) * 1 + ((0 : Nat) : Int))).toNat = i := by
          have h1 : (((i : Nat) : Int) * 1 + ((0 : Nat) : Int)) = ((i : Nat) : Int) := by
            norm_num
          rw [h1, int_of_eq_self (by omega) (by omega)]
          omega
        rw [hidx, hgetD]

/-- C4: in every locality tree built by `create_subdomains` from a
`GLOBAL`-scope root, every `CORE`-scope domain has `num_units == 1`,
`hwinfo.num_modules == num_numa == num_cores == 1`, and its `unit_ids` is
exactly the single element of its parent's `unit_ids` at the leaf's
relative index. -/
theorem C4_core_leaf_fields (topo : dart_host_topology_t) (f : Int → Int)
    (fuel : Nat) (d0 : domain_data) (t : locality_domain)
    (hscope : d0.scope = dart_locality_scope_t.DART_LOCALITY_SCOPE_GLOBAL)
    (hb : dart__base__locality__create_subdomains topo f fuel d0 = some t)
    (p : List Nat) (par c : locality_domain) (i : Nat)
    (hpar : node_at t p = some par) (hc : par.children.get? i = some c)
    (hcore : c.data.scope = dart_locality_scope_t.DART_LOCALITY_SCOPE_CORE) :
    c.data.num_units = 1 ∧ c.data.hwinfo.num_modules = 1 ∧
    c.data.hwinfo.num_numa = 1 ∧ c.data.hwinfo.num_cores = 1 ∧
    c.data.relative_index = i ∧
    ∃ u, par.data.unit_ids.get? c.data.relative_index = some u ∧
      c.data.unit_ids = [u] := by
  have hgood : numa_good d0 := by
    intro h
    rw [hscope] at h
    exact absurd h (by decide)
  obtain ⟨h1, h2, h3, h4, h5, u, hu, hcu⟩ :=
    core_child_props fuel d0 t hgood hb p par hpar i c hc hcore
  exact ⟨h1, h2, h3, h4, h5, u, by rw [h5]; exact hu, hcu⟩

def c4_par : locality_domain := (node_at c5_tree [0, 0, 0]).getD c5_tree

def c4_core : locality_domain := (c4_par.children.get? 0).getD c5_tree

/-- Witness for C4 at the CORE leaf of the concrete one-unit tree. -/
theorem C4_witness :
    c5_root.scope = dart_locality_scope_t.DART_LOCALITY_SCOPE_GLOBAL ∧
    (c4_core.data.num_units = 1 ∧ c4_core.data.hwinfo.num_modules = 1 ∧
      c4_core.data.hwinfo.num_numa = 1 ∧ c4_core.data.hwinfo.num_cores = 1 ∧
      c4_core.data.relative_index = 0 ∧
      ∃ u, c4_par.data.unit_ids.get? c4_core.data.relative_index = some u ∧
        c4_core.data.unit_ids = [u]) :=
  ⟨rfl, C4_core_leaf_fields c5_topo (fun _ => 0) 5 c5_root c5_tree rfl rfl
    [0, 0, 0] c4_par c4_core 0 rfl rfl rfl⟩

lemma lookup_loop_eq_spec :
    ∀ (fuel : Nat) (db : List Char) (d : locality_domain),
      db.length < fuel → tree_wf d = true →
      (∀ v ∈ parse_parts_loop fuel db, 0 ≤ v ∧ v < 2147483648) →
      domain_lookup_loop fuel (domain_ptr.valid d) db =
        spec_descend d (parse_parts_loop fuel db) := by
  intro fuel
  induction fuel with
  | zero => intro db d h _ _; omega
  | succ fuel ih =>
    intro db d hlen hwf hnn
    by_cases hg : db = [] ∨ db.tail = []
    · rw [domain_lookup_loop, if_pos hg, parse_parts_loop, if_pos hg]
      rfl
    · have hpp : parse_parts_loop (fuel + 1) db =
          (strtol10 db.tail).1 :: parse_parts_loop fuel (strtol10 db.tail).2 := by
        rw [parse_parts_loop, if_neg hg]
      rw [hpp] at hnn
      have hvb := hnn _ (List.mem_cons_self _ _)
      have hv : 0 ≤ (strtol10 db.tail).1 := hvb.1
      have hcast : int_of (strtol10 db.tail).1 = (strtol10 db.tail).1 :=
        int_of_eq_self (by omega) hvb.2
      rw [domain_lookup_loop, if_neg hg]
      dsimp only
      rw [hcast]
      rw [hpp, spec_descend]
      by_cases hr : d.num_domains ≤ (strtol10 db.tail).1
      · rw [if_pos hr, if_neg (by omega)]
      · rw [if_neg hr, if_pos ⟨hv, by omega⟩]
        have hlen2 := tree_wf_children_length hwf
        have hvlt : (strtol10 db.tail).1.toNat < d.children.length := by omega
        obtain ⟨c, hcg⟩ : ∃ c, d.children.get? (strtol10 db.tail).1.toNat = some c := by
          cases hg2 : d.children.get? (strtol10 db.tail).1.toNat with
          | none => rw [List.get?_eq_none] at hg2; omega
          | some c => exact ⟨c, rfl⟩
        rw [hcg]
        have hcp : child_ptr d (strtol10 db.tail).1 = domain_ptr.valid c := by
          unfold child_ptr
          rw [if_neg (by omega)]
          cases d with
          | mk data nd cs =>
            cases cs with
            | none =>
              simp only [locality_domain.children] at hcg
              simp at hcg
            | some l =>
              simp only [locality_domain.domains]
              simp only [locality_domain.children] at hcg
              have hl : l[(strtol10 db.tail).1.toNat]? = some c := by simpa using hcg
              simp [hl]
        rw [hcp]
        have hrl : (strtol10 db.tail).2.length < fuel := by
          have h1 := strtol10_rest_length db.tail
          have h2 : db.tail.length + 1 = db.length := by
            cases db with
            | nil => simp at hg
            | cons a l => simp
          omega
        exact ih _ c hrl (tree_wf_child hwf (List.get?_mem hcg))
          (fun v hv2 => hnn v (List.mem_cons_of_mem _ hv2))

/-- C6 amended: over a structurally well-formed tree, for every tag whose
parsed dot-separated integers all lie in `[0, 2^31)` -- nonnegative and
unchanged by the truncating `(int)` cast at part_000 line 624 -- the lookup
of `dart__base__locality__domain` behaves exactly as the claim says (descend
`children[int]` per part, `INVALID` at the first part that is out of range
for the current node's number of children or hits a missing intermediate,
the addressed domain otherwise).  Outside that range the claim fails in two
ways: a negative part -- out of range for every node -- passes the only
range check `num_domains <= subdomain_idx` and the code descends
`domains + idx` out of bounds instead of returning `INVALID`, and a part of
`2^31` or more is first reduced modulo `2^32` by the cast, so e.g.
`".4294967296"` wraps to child index 0 and is served with `DART_OK`. -/
theorem C6_lookup_matches_spec_in_int_range (root : locality_domain)
    (tag : List Char) (hwf : tree_wf root = true)
    (hnn : ∀ v ∈ parse_tag_parts tag, 0 ≤ v ∧ v < 2147483648) :
    dart__base__locality__domain root tag = spec_domain_lookup root tag := by
  unfold dart__base__locality__domain spec_domain_lookup parse_tag_parts
  cases hs : strchr_dot tag with
  | none => rfl
  | some db =>
    have hnn2 : ∀ v ∈ parse_parts_loop (db.length + 1) db, 0 ≤ v ∧ v < 2147483648 := by
      intro v hv
      apply hnn
      unfold parse_tag_parts
      rw [hs]
      exact hv
    exact lookup_loop_eq_spec (db.length + 1) db root (Nat.lt_succ_self _) hwf hnn2

def c6_leaf : locality_domain :=
  locality_domain.mk
    { domain_tag := ['.', '0'], host := "h"
      scope := dart_locality_scope_t.DART_LOCALITY_SCOPE_NODE
      level := 1, relative_index := 0, node_id := 0
      hwinfo := { num_modules := 0, num_numa := 0, num_cores := 1 }
      num_nodes := 1, num_units := 1, unit_ids := [0] }
    0 none

def c6_tree : locality_domain :=
  locality_domain.mk
    { domain_tag := ['.'], host := "h"
      scope := dart_locality_scope_t.DART_LOCALITY_SCOPE_GLOBAL
      level := 0, relative_index := 0, node_id := 0
      hwinfo := { num_modules := 1, num_numa := 1, num_cores := 1 }
      num_nodes := 1, num_units := 1, unit_ids := [0] }
    1 (some [c6_leaf])

def c6_tag : List Char := ['.', '-', '1']

/-- The tag `".4294967296"`: its single part parses to `2^32`, which the
`(int)` cast at part_000 line 624 truncates to 0. -/
def c6_wrap_tag : List Char :=
  ['.', '4', '2', '9', '4', '9', '6', '7', '2', '9', '6']

/-- C6 counterexample, two failing inputs on the same well-formed tree.  On
the tag `".-1"` the integer part `-1` is out of range for the root's single
child, so the claim requires `INVALID`; the code passes its only range check
(`num_domains <= -1` is false), forms the out-of-bounds pointer
`domains + (-1)` and returns `DART_OK` with it -- not `INVALID`.  On the tag
`".4294967296"` the part `2^32` is again out of range, so the claim requires
`INVALID`; the truncating cast `int subdomain_idx = (int)(tag_part)` wraps
it to 0, the range check `1 <= 0` is false, and the code descends to child 0
and returns it with `DART_OK`. -/
theorem C6_out_of_range_counterexample :
    tree_wf c6_tree = true ∧
    spec_domain_lookup c6_tree c6_tag = lookup_res.inval ∧
    dart__base__locality__domain c6_tree c6_tag = lookup_res.ok domain_ptr.wild ∧
    spec_domain_lookup c6_tree c6_wrap_tag = lookup_res.inval ∧
    dart__base__locality__domain c6_tree c6_wrap_tag =
      lookup_res.ok (domain_ptr.valid c6_leaf) := by
  exact ⟨rfl, rfl, rfl, rfl, rfl⟩

/-- Witness for C6 on the concrete tree and the tag `".0"`. -/
theorem C6_witness :
    tree_wf c6_tree = true ∧
    (∀ v ∈ parse_tag_parts ['.', '0'], 0 ≤ v ∧ v < 2147483648) ∧
    dart__base__locality__domain c6_tree ['.', '0'] =
      spec_domain_lookup c6_tree ['.', '0'] :=
  ⟨rfl, by decide,
    C6_lookup_matches_spec_in_int_range c6_tree ['.', '0'] rfl (by decide)⟩

def c10_bad : locality_domain :=
  locality_domain.mk
    { domain_tag := ['.'], host := "h"
      scope := dart_locality_scope_t.DART_LOCALITY_SCOPE_GLOBAL
      level := 0, relative_index := 0, node_id := 0
      hwinfo := { num_modules := 1, num_numa := 1, num_cores := 1 }
      num_nodes := 1, num_units := 0, unit_ids := [] }
    1 none

/-- C10 counterexample: a domain with `num_domains = 1` but `domains == NULL`
(the very shape the function's own guard tests for) is rejected with
`DART_ERR_INVAL` and left untouched, so after the call `num_domains` is
still 1, contradicting "for every domain d, after domain_delete(d) completes
d has domains == NULL and num_domains == 0" and the claimed `OK` result. -/
theorem C10_inconsistent_domain_counterexample :
    dart__base__locality__domain_delete (some c10_bad) =
      (dart_ret_t.DART_ERR_INVAL, some c10_bad) ∧
    c10_bad.num_domains = 1 := by
  exact ⟨rfl, rfl⟩

/-- C10 amended: `domain_delete(NULL)` returns `OK`; for every domain whose
`domains` pointer is non-`NULL` or whose `num_domains` is not positive,
`domain_delete` returns `OK` and leaves the domain with `domains == NULL`
and `num_domains == 0`, so a second call also returns `OK` and changes
nothing; a domain with `num_domains > 0` but `domains == NULL` is instead
rejected with `DART_ERR_INVAL` and left unchanged. -/
theorem C10_delete_null_safe_idempotent (t : locality_domain)
    (h : t.domains ≠ none ∨ ¬ 0 < t.num_domains) :
    dart__base__locality__domain_delete none = (dart_ret_t.DART_OK, none) ∧
    dart__base__locality__domain_delete (some t) =
      (dart_ret_t.DART_OK, some (locality_domain.mk t.data 0 none)) ∧
    dart__base__locality__domain_delete (some (locality_domain.mk t.data 0 none)) =
      (dart_ret_t.DART_OK, some (locality_domain.mk t.data 0 none)) := by
  refine ⟨rfl, ?_, ?_⟩
  · unfold dart__base__locality__domain_delete
    dsimp only
    rw [if_neg]
    rintro ⟨h1, h2⟩
    rcases h with h | h
    · exact h h2
    · exact h h1
  · unfold dart__base__locality__domain_delete
    dsimp only
    rfl

/-- Witness for C10 on a childless concrete domain. -/
theorem C10_witness :
    (c6_leaf.domains ≠ none ∨ ¬ 0 < c6_leaf.num_domains) ∧
    (dart__base__locality__domain_delete none = (dart_ret_t.DART_OK, none) ∧
      dart__base__locality__domain_delete (some c6_leaf) =
        (dart_ret_t.DART_OK, some (locality_domain.mk c6_leaf.data 0 none)) ∧
      dart__base__locality__domain_delete
          (some (locality_domain.mk c6_leaf.data 0 none)) =
        (dart_ret_t.DART_OK, some (locality_domain.mk c6_leaf.data 0 none))) :=
  ⟨Or.inr (by decide), C10_delete_null_safe_idempotent c6_leaf (Or.inr (by decide))⟩
